import Mathlib

/-!
Verification of the ll-analytics scrape/sync pipeline.

This file gives a shallow embedding of the scraper core of the repository:
the relational store (`database.py` schema), the SQL write primitives used by
the pipeline (`INSERT OR REPLACE`, `ON CONFLICT DO UPDATE`, `COALESCE`
updates), the page extractors (`players.py`, `questions.py`, `matches.py`),
the session rate limiter (`auth.py`) and the six-stage orchestrator
(`runner.py`, class `LLScraper`).  HTML access and the network are abstracted
into oracles that supply the already-extracted records a fetch would produce;
everything downstream of extraction is translated statement by statement from
the source.
-/

namespace LLAnalytics

/-- Python dict lookup for a dict built by successive insertion from an
association list: a later binding of the same key overwrites an earlier one,
so lookup returns the value of the last matching pair. -/
def dictGet [BEq α] (l : List (α × β)) (k : α) : Option β :=
  (l.reverse.find? (fun p => p.1 == k)).map (·.2)

/-- SQL `COALESCE(new, old)`: the new value when it is non-NULL, otherwise the
old one.  (`runner.py` uses this in the question-enrichment UPDATE
statements.) -/
def coalesce (new old : Option α) : Option α :=
  match new with
  | some v => some v
  | none => old

/-- Python `str.lower()` (character-wise; the source applies it to ASCII
labels). -/
def pyToLower (s : String) : String :=
  String.mk (s.toList.map Char.toLower)

/-- Python `str.upper()`. -/
def pyToUpper (s : String) : String :=
  String.mk (s.toList.map Char.toUpper)

/-- Python `\s` (ASCII range). -/
def isPySpace (c : Char) : Bool :=
  c == ' ' || c == '\t' || c == '\n' || c == '\r' || c == '\x0B' || c == '\x0C'

/-- Python `str.strip()`: drop whitespace from both ends. -/
def pyStrip (s : String) : String :=
  String.mk (((s.toList.dropWhile isPySpace).reverse.dropWhile isPySpace).reverse)

/-- The 18 Learned League categories (`config.py`, `LL_CATEGORIES`). -/
def LL_CATEGORIES : List String :=
  ["American History", "Art", "Business/Economics", "Classical Music",
   "Film", "Food/Drink", "Games/Sport", "Geography", "Language",
   "Lifestyle", "Literature", "Math", "Pop Music", "Science",
   "Television", "Theatre", "World History", "Miscellaneous"]

/-- Mapping from LL's abbreviated category names to the standard names
(`players.py`, `CATEGORY_MAP`). -/
def CATEGORY_MAP : List (String × String) :=
  [("AMER HIST", "American History"), ("ART", "Art"),
   ("BUS/ECON", "Business/Economics"), ("CLASS MUSIC", "Classical Music"),
   ("FILM", "Film"), ("FOOD/DRINK", "Food/Drink"),
   ("GAMES/SPORT", "Games/Sport"), ("GEOGRAPHY", "Geography"),
   ("LANGUAGE", "Language"), ("LIFESTYLE", "Lifestyle"),
   ("LITERATURE", "Literature"), ("MATH", "Math"),
   ("POP MUSIC", "Pop Music"), ("SCIENCE", "Science"),
   ("TELEVISION", "Television"), ("THEATRE", "Theatre"),
   ("WORLD HIST", "World History"), ("MISC", "Miscellaneous")]

/-- `CATEGORY_MAP.get(label)` (Python dict `.get` without default). -/
def categoryMapGet (label : String) : Option String :=
  dictGet CATEGORY_MAP label

/-! ## Relational store (schema of `database.py`)

Each table is a list of rows in rowid order; `INTEGER PRIMARY KEY` surrogate
ids are modelled by an explicit id field fed from a monotone counter, so that
SQLite's `INSERT OR REPLACE` behaviour (delete the conflicting row, insert a
fresh row with a fresh rowid) is captured exactly. -/

structure PlayerRow where
  id : Nat
  ll_username : String
  /-- external numeric site id; the column is added by a migration script and
  is nullable. -/
  ll_id : Option Nat
  deriving Repr, DecidableEq

structure QuestionRow where
  id : Nat
  season_id : Nat
  match_day : Nat
  question_number : Nat
  question_text : Option String
  correct_answer : Option String
  category_id : Option Nat
  deriving Repr, DecidableEq

structure AnswerRow where
  id : Nat
  player_id : Nat
  question_id : Nat
  correct : Bool
  defense_points_assigned : Option Int
  deriving Repr, DecidableEq

structure PlayerRundleRow where
  player_id : Nat
  rundle_id : Nat
  final_rank : Option Int
  deriving Repr, DecidableEq

structure MatchRow where
  id : Nat
  season_id : Nat
  match_day : Nat
  player1_id : Nat
  player2_id : Nat
  player1_score : Option Int
  player2_score : Option Int
  player1_tca : Option Int
  player2_tca : Option Int
  ll_match_id : Option Nat
  deriving Repr, DecidableEq

structure MatchQuestionRow where
  id : Nat
  match_id : Nat
  question_num : Nat
  player1_correct : Bool
  player2_correct : Bool
  player1_defense : Int
  player2_defense : Int
  category_id : Option Nat
  /-- `question_ca_pct`, stored as the integer percentage scraped from the
  page (the source divides it by 100.0 before storing; no arithmetic is ever
  done on it downstream, so the scaling is immaterial here). -/
  question_ca_pct : Option Nat
  deriving Repr, DecidableEq

/-- Modelled from the spec: the `player_lifetime_stats` table
(**LifetimeCategoryStat**, spec section 3) keyed by `(player, category)`,
holding cumulative correct/total and percentage.  Its `CREATE TABLE`
statement is not under `src/` (only its readers and writers are); per the
spec the natural key is `(player, category)` and the percentage is
cumulative-correct over total.  The percentage is kept as an exact rational
here. -/
structure LifetimeStatRow where
  player_id : Nat
  category_id : Nat
  correct_pct : ℚ
  total_questions : Nat
  deriving Repr, DecidableEq

structure CategoryRow where
  id : Nat
  name : String
  deriving Repr, DecidableEq

structure SeasonRow where
  id : Nat
  season_number : Nat
  deriving Repr, DecidableEq

structure RundleRow where
  id : Nat
  season_id : Nat
  league : String
  level : String
  name : String
  deriving Repr, DecidableEq

/-- The relational store. -/
structure DB where
  seasons : List SeasonRow
  players : List PlayerRow
  categories : List CategoryRow
  rundles : List RundleRow
  player_rundles : List PlayerRundleRow
  questions : List QuestionRow
  answers : List AnswerRow
  «matches» : List MatchRow
  match_questions : List MatchQuestionRow
  player_lifetime_stats : List LifetimeStatRow
  nextSeasonId : Nat
  nextPlayerId : Nat
  nextRundleId : Nat
  nextAnswerId : Nat
  nextMatchId : Nat
  nextMatchQuestionId : Nat
  deriving Repr, DecidableEq

/-! ## Scraped records

The typed records the page extractors hand to the orchestrator.  Where the
orchestrator reads a dict entry with `.get(...)` the field is an `Option`
(an absent key is Python `None`, which becomes SQL NULL when bound as a
statement parameter).  Each record that the orchestrator writes to the store
carries a `db_fail` oracle flag meaning "the database write for this unit
raises"; it lets the error-propagation behaviour of every `try/except` in
`runner.py` be exercised. -/

structure PlayerStanding where
  username : String
  ll_id : Option Nat
  rank : Option Int
  db_fail : Bool
  deriving Repr, DecidableEq

structure MyAnswerScrape where
  match_day : Nat
  question_number : Nat
  correct : Bool
  question_text : String
  correct_answer : String
  db_fail : Bool
  deriving Repr, DecidableEq

structure MatchScrape where
  match_day : Nat
  player1 : String
  player2 : String
  p1_score : Int
  p1_tca : Int
  p2_score : Int
  p2_tca : Int
  ll_match_id : Option Nat
  db_fail : Bool
  deriving Repr, DecidableEq

structure DetailQuestion where
  q_num : Nat
  p1_correct : Bool
  p2_correct : Bool
  p1_defense : Int
  p2_defense : Int
  category : Option String
  ca_pct : Option Nat
  deriving Repr, DecidableEq

structure MatchDetails where
  questions : List DetailQuestion
  db_fail : Bool
  deriving Repr, DecidableEq

structure ProfileCategory where
  name : String
  correct : Nat
  total : Nat
  pct : ℚ
  deriving Repr, DecidableEq

structure ProfileData where
  categories : List ProfileCategory
  db_fail : Bool
  deriving Repr, DecidableEq

/-- One question dict of `parse_rundle_matchday`, as read back by the
orchestrator through `q.get(...)`. -/
structure ScrapedQuestion where
  num : Nat
  category : Option String
  text : Option String
  answer : Option String
  deriving Repr, DecidableEq

/-- One `player_answers` dict of `parse_rundle_matchday`:
`pa.get('q{n}_correct', False)` and `pa.get('q{n}_defense', 0)` are the
positional reads with defaults. -/
structure ScrapedPlayerAnswer where
  ll_id : Option Nat
  q_correct : List Bool
  q_defense : List Int
  db_fail : Bool
  deriving Repr, DecidableEq

structure RundleDayData where
  questions : List ScrapedQuestion
  player_answers : List ScrapedPlayerAnswer
  deriving Repr, DecidableEq

/-- The network/extraction oracle: what each fetch-and-parse would return.
`none` models a fetch failure or a parse mismatch (both produce `None` in the
source).  `config_username` is `Config.LL_USERNAME`. -/
structure Oracle where
  config_username : String
  players_stats : List PlayerStanding
  my_answers : List MyAnswerScrape
  match_results : List MatchScrape
  match_details : Nat → Option MatchDetails
  profiles : Nat → Option ProfileData
  rundle_days : Nat → Option RundleDayData

/-- `ScrapeResult` of `runner.py` (timestamps dropped). -/
structure ErrorEntry where
  stage : String
  detail : String
  deriving Repr, DecidableEq

structure ScrapeResultM where
  counts : List (String × Int)
  errors : List ErrorEntry
  deriving Repr, DecidableEq

/-- `ScrapeResult.count`: `counts[key] = counts.get(key, 0) + n`. -/
def ScrapeResultM.count (r : ScrapeResultM) (key : String) (n : Int) : ScrapeResultM :=
  if r.counts.any (fun p => p.1 == key) then
    { r with counts := r.counts.map (fun p => if p.1 == key then (p.1, p.2 + n) else p) }
  else
    { r with counts := r.counts ++ [(key, n)] }

/-- `ScrapeResult.error`. -/
def ScrapeResultM.error (r : ScrapeResultM) (stage detail : String) : ScrapeResultM :=
  { r with errors := r.errors ++ [⟨stage, detail⟩] }

def ScrapeResultM.init : ScrapeResultM := ⟨[], []⟩

/-! ## Query helpers and SQL write primitives -/

def seasonIdByNumber (db : DB) (n : Nat) : Option Nat :=
  (db.seasons.find? (fun s => s.season_number == n)).map (·.id)

def playerIdByUsername (db : DB) (u : String) : Option Nat :=
  (db.players.find? (fun p => p.ll_username == u)).map (·.id)

/-- The dict `{c['name']: c['id'] for c in SELECT id, name FROM categories}`. -/
def categoriesDict (db : DB) : List (String × Nat) :=
  db.categories.map (fun c => (c.name, c.id))

def categoriesGet (db : DB) (name : String) : Option Nat :=
  dictGet (categoriesDict db) name

/-- `get_or_create_player` (`database.py`): `INSERT OR IGNORE` by username,
then select the id. -/
def get_or_create_player (db : DB) (username : String) : DB × Nat :=
  match playerIdByUsername db username with
  | some pid => (db, pid)
  | none =>
      let pid := db.nextPlayerId
      ({ db with players := db.players ++ [⟨pid, username, none⟩],
                 nextPlayerId := pid + 1 }, pid)

/-- `get_or_create_season` (`database.py`). -/
def get_or_create_season (db : DB) (season_number : Nat) : DB × Nat :=
  match seasonIdByNumber db season_number with
  | some sid => (db, sid)
  | none =>
      let sid := db.nextSeasonId
      ({ db with seasons := db.seasons ++ [⟨sid, season_number⟩],
                 nextSeasonId := sid + 1 }, sid)

/-- `LLScraper._ensure_rundle`: look up by `(name, season_id)`, otherwise
insert with league `LL` and the level derived from the name. -/
def ensure_rundle (db : DB) (season_id : Nat) (rundle : String) : DB × Nat :=
  match db.rundles.find? (fun r => r.name == rundle && r.season_id == season_id) with
  | some r => (db, r.id)
  | none =>
      let level :=
        if rundle.toList.contains '_' then
          String.mk (rundle.toList.takeWhile (fun c => c ≠ '_'))
        else
          String.mk (rundle.toList.take 1)
      let rid := db.nextRundleId
      ({ db with rundles := db.rundles ++ [⟨rid, season_id, "LL", level, rundle⟩],
                 nextRundleId := rid + 1 }, rid)

/-- `INSERT OR REPLACE INTO answers (player_id, question_id, correct[, defense])`:
SQLite deletes any row conflicting on the UNIQUE `(player_id, question_id)`
constraint and inserts a fresh row, which receives a fresh surrogate id. -/
def insertOrReplaceAnswer (db : DB) (player_id question_id : Nat) (c : Bool)
    (dp : Option Int) : DB :=
  { db with
    answers :=
      db.answers.filter
          (fun a => !(a.player_id == player_id && a.question_id == question_id))
        ++ [⟨db.nextAnswerId, player_id, question_id, c, dp⟩],
    nextAnswerId := db.nextAnswerId + 1 }

/-- `INSERT OR REPLACE INTO player_rundles`: the natural key
`(player_id, rundle_id)` is the primary key, so a replace leaves no visible
column changed beyond `final_rank`. -/
def insertOrReplacePlayerRundle (db : DB) (pid rid : Nat) (rank : Option Int) : DB :=
  { db with
    player_rundles :=
      db.player_rundles.filter
          (fun pr => !(pr.player_id == pid && pr.rundle_id == rid))
        ++ [⟨pid, rid, rank⟩] }

/-- The `matches` upsert of `_scrape_match_results`:
`ON CONFLICT(season_id, match_day, player1_id, player2_id) DO UPDATE`, which
keeps the existing row (and its id) and overwrites the score columns. -/
def upsertMatch (db : DB) (season_id : Nat) (m : MatchScrape) (p1_id p2_id : Nat) : DB :=
  let conflict := fun (r : MatchRow) =>
    r.season_id == season_id && r.match_day == m.match_day &&
    r.player1_id == p1_id && r.player2_id == p2_id
  if db.matches.any conflict then
    { db with
      «matches» := db.matches.map (fun r =>
        if conflict r then
          { r with player1_score := some m.p1_score, player2_score := some m.p2_score,
                   player1_tca := some m.p1_tca, player2_tca := some m.p2_tca,
                   ll_match_id := m.ll_match_id }
        else r) }
  else
    { db with
      «matches» := db.matches ++
        [⟨db.nextMatchId, season_id, m.match_day, p1_id, p2_id,
          some m.p1_score, some m.p2_score, some m.p1_tca, some m.p2_tca,
          m.ll_match_id⟩],
      nextMatchId := db.nextMatchId + 1 }

/-- `INSERT OR REPLACE INTO match_questions` keyed by the UNIQUE
`(match_id, question_num)`. -/
def insertOrReplaceMatchQuestion (db : DB) (match_id : Nat) (q : DetailQuestion)
    (cat_id : Option Nat) : DB :=
  { db with
    match_questions :=
      db.match_questions.filter
          (fun r => !(r.match_id == match_id && r.question_num == q.q_num))
        ++ [⟨db.nextMatchQuestionId, match_id, q.q_num, q.p1_correct, q.p2_correct,
             q.p1_defense, q.p2_defense, cat_id, q.ca_pct⟩],
    nextMatchQuestionId := db.nextMatchQuestionId + 1 }

/-- `INSERT OR REPLACE INTO player_lifetime_stats` keyed by
`(player_id, category_id)`. -/
def insertOrReplaceLifetimeStat (db : DB) (pid cid : Nat) (pct : ℚ) (total : Nat) : DB :=
  { db with
    player_lifetime_stats :=
      db.player_lifetime_stats.filter
          (fun s => !(s.player_id == pid && s.category_id == cid))
        ++ [⟨pid, cid, pct, total⟩] }

/-- The rundle-answers question enrichment row update
(`UPDATE questions SET question_text = COALESCE(?, question_text), ...`). -/
def updateQuestionRow (text answer : Option String) (cat_id : Option Nat)
    (q : QuestionRow) : QuestionRow :=
  { q with question_text := coalesce text q.question_text,
           correct_answer := coalesce answer q.correct_answer,
           category_id := coalesce cat_id q.category_id }

/-- `UPDATE questions ... WHERE season_id = ? AND match_day = ? AND
question_number = ?` (rundle-answers stage). -/
def updateQuestionsWhere (db : DB) (season_id day num : Nat)
    (text answer : Option String) (cat : Option Nat) : DB :=
  { db with
    questions := db.questions.map (fun q =>
      if q.season_id == season_id && q.match_day == day && q.question_number == num
      then updateQuestionRow text answer cat q else q) }

/-- `UPDATE questions SET question_text = COALESCE(?, question_text),
correct_answer = COALESCE(?, correct_answer) WHERE id = ?`
(my-answers stage). -/
def updateQuestionTextById (db : DB) (qid : Nat) (text answer : Option String) : DB :=
  { db with
    questions := db.questions.map (fun q =>
      if q.id == qid then
        { q with question_text := coalesce text q.question_text,
                 correct_answer := coalesce answer q.correct_answer }
      else q) }

/-- `LLScraper._get_question_map`: the dict
`{(match_day, question_number): id}` over one season's questions. -/
def question_map (db : DB) (season_id : Nat) : List ((Nat × Nat) × Nat) :=
  (db.questions.filter (fun q => q.season_id == season_id)).map
    (fun q => ((q.match_day, q.question_number), q.id))

/-- The per-day dict `{question_number: id}` of the rundle-answers stage. -/
def q_num_to_id (db : DB) (season_id day : Nat) : List (Nat × Nat) :=
  (db.questions.filter (fun q => q.season_id == season_id && q.match_day == day)).map
    (fun q => (q.question_number, q.id))

/-- The dict `{p['ll_id']: p['id'] for SELECT id, ll_id FROM players WHERE
ll_id IS NOT NULL}` built at the start of the rundle-answers stage. -/
def ll_id_to_player (db : DB) : List (Nat × Nat) :=
  db.players.filterMap (fun p => p.ll_id.map (fun ll => (ll, p.id)))

/-- `SELECT p.id FROM players p JOIN player_rundles pr ON p.id = pr.player_id
WHERE pr.rundle_id = ?`. -/
def rundle_players (db : DB) (rundle_id : Nat) : List Nat :=
  (db.player_rundles.filter (fun pr => pr.rundle_id == rundle_id)).filterMap
    (fun pr =>
      if db.players.any (fun p => p.id == pr.player_id) then some pr.player_id
      else none)

def rundle_player_count (db : DB) (rundle_id : Nat) : Nat :=
  (rundle_players db rundle_id).length

/-- The checkpoint query of the rundle-answers stage:
`COUNT(DISTINCT a.player_id)` over answers of this season/day joined to the
rundle membership. -/
def existingDistinctCount (db : DB) (season_id day rundle_id : Nat) : Nat :=
  (((db.answers.filter (fun a =>
        db.questions.any (fun q =>
          q.id == a.question_id && q.season_id == season_id && q.match_day == day) &&
        db.player_rundles.any (fun pr =>
          pr.player_id == a.player_id && pr.rundle_id == rundle_id))).map
      (·.player_id)).eraseDups).length

/-- `SELECT COUNT(*) FROM player_lifetime_stats WHERE player_id = ?`. -/
def lifetimeStatCount (db : DB) (pid : Nat) : Nat :=
  (db.player_lifetime_stats.filter (fun s => s.player_id == pid)).length

/-- `SELECT p.* FROM players p JOIN player_rundles pr ... WHERE pr.rundle_id = ?`
with the player columns the profiles stage reads. -/
def rundle_player_rows (db : DB) (rundle_id : Nat) : List PlayerRow :=
  (db.player_rundles.filter (fun pr => pr.rundle_id == rundle_id)).filterMap
    (fun pr => db.players.find? (fun p => p.id == pr.player_id))

/-! ## The six pipeline stages (`runner.py`, `LLScraper`)

A write that the source wraps in `try/except` turns a `db_fail` into a
recorded error (or, in the rundle-answers answer loop, into nothing at all:
`except Exception: pass`); a write outside any `try` turns it into an
`Except.error`, i.e. an uncaught exception that aborts `scrape_full`. -/

/-- Left fold in the `Except` monad: the loop stops at the first uncaught
exception. -/
def foldE (f : σ → α → Except String σ) : σ → List α → Except String σ
  | s, [] => Except.ok s
  | s, a :: l =>
    match f s a with
    | Except.error e => Except.error e
    | Except.ok s' => foldE f s' l

/-- Stage 1 body, one standings row (`_scrape_standings` loop): look the
player up by username; on a hit, enrich `ll_id` when the scraped id is
present and differs; on a miss, insert the player; then
`INSERT OR REPLACE` the rundle membership.  None of these writes is inside a
`try`, so a database failure propagates. -/
def standings_write_one (rundle_id : Nat) (db : DB) (p : PlayerStanding) :
    Except String DB :=
  if p.db_fail then Except.error "standings db error" else
  let wr : DB × Nat :=
    match playerIdByUsername db p.username with
    | some pid =>
        let db :=
          match p.ll_id with
          | some ll =>
              { db with players := db.players.map (fun pl =>
                  if pl.id == pid && (pl.ll_id == none || pl.ll_id != some ll)
                  then { pl with ll_id := some ll } else pl) }
          | none => db
        (db, pid)
    | none =>
        let pid := db.nextPlayerId
        ({ db with players := db.players ++ [⟨pid, p.username, p.ll_id⟩],
                   nextPlayerId := pid + 1 }, pid)
  Except.ok (insertOrReplacePlayerRundle wr.1 wr.2 rundle_id p.rank)

def scrape_standings_stage (o : Oracle) (rundle_id : Nat) (db : DB)
    (result : ScrapeResultM) : Except String (DB × ScrapeResultM) :=
  match foldE (standings_write_one rundle_id) db o.players_stats with
  | Except.error e => Except.error e
  | Except.ok db' =>
      Except.ok (db', result.count "players_standings" (o.players_stats.length : Int))

/-- Accumulator of the `_scrape_my_answers` loop. -/
structure MyAnswersAcc where
  db : DB
  result : ScrapeResultM
  saved : Nat

/-- Stage 2 body, one scraped answer: resolve the question id through the
precomputed map (skip when absent); inside the `try`, `INSERT OR REPLACE`
the answer and, when the scraped text or answer is truthy, run the
COALESCE enrichment; a database failure is caught and recorded. -/
def my_answers_write_one (player_id : Nat) (qmap : List ((Nat × Nat) × Nat))
    (acc : MyAnswersAcc) (ans : MyAnswerScrape) : MyAnswersAcc :=
  match dictGet qmap (ans.match_day, ans.question_number) with
  | none => acc
  | some q_id =>
      if ans.db_fail then
        { acc with result := acc.result.error "my_answers" "db error" }
      else
        let db := insertOrReplaceAnswer acc.db player_id q_id ans.correct none
        let db :=
          if ans.question_text != "" || ans.correct_answer != "" then
            updateQuestionTextById db q_id (some ans.question_text)
              (some ans.correct_answer)
          else db
        { acc with db := db, saved := acc.saved + 1 }

def scrape_my_answers_stage (o : Oracle) (season : Nat) (db : DB)
    (result : ScrapeResultM) : DB × ScrapeResultM :=
  match seasonIdByNumber db season with
  | none => (db, result.error "my_answers" "season not found")
  | some season_id =>
      match playerIdByUsername db o.config_username with
      | none => (db, result.error "my_answers" "player not found in database")
      | some player_id =>
          let qmap := question_map db season_id
          let acc := o.my_answers.foldl (my_answers_write_one player_id qmap)
            ⟨db, result, 0⟩
          (acc.db, acc.result.count "my_answers" (acc.saved : Int))

/-- Accumulator of the `_scrape_match_results` loop. -/
structure MatchResultsAcc where
  db : DB
  result : ScrapeResultM
  saved : Nat

/-- Stage 3 body, one match record: auto-create unseen players, then upsert
the match inside the `try`; a database failure on the upsert is caught and
recorded. -/
def match_results_write_one (season_id : Nat) (acc : MatchResultsAcc)
    (m : MatchScrape) : MatchResultsAcc :=
  let w1 := get_or_create_player acc.db m.player1
  let w2 := get_or_create_player w1.1 m.player2
  if m.db_fail then
    { acc with db := w2.1, result := acc.result.error "match_results" "db error" }
  else
    { acc with db := upsertMatch w2.1 season_id m w1.2 w2.2, saved := acc.saved + 1 }

def scrape_match_results_stage (o : Oracle) (season : Nat) (db : DB)
    (result : ScrapeResultM) : DB × ScrapeResultM :=
  match seasonIdByNumber db season with
  | none => (db, result.error "match_results" "season not found")
  | some season_id =>
      let acc := o.match_results.foldl (match_results_write_one season_id)
        ⟨db, result, 0⟩
      (acc.db, acc.result.count "matches" (acc.saved : Int))

/-- The `_scrape_match_details` checkpoint: skip when the match already has
detail rows and all of them carry a category. -/
def match_details_checkpoint (db : DB) (match_id : Nat) : Bool :=
  let rows := db.match_questions.filter (fun r => r.match_id == match_id)
  decide (0 < rows.length) &&
    (rows.filter (fun r => r.category_id.isSome)).length == rows.length

structure MatchDetailsAcc where
  db : DB
  scraped : Nat

/-- Stage 4 body, one match needing details: checkpoint, fetch, then write
each question row outside any `try` — a database failure propagates and
aborts the run. -/
def match_details_write_one (o : Oracle) (cats : List (String × Nat))
    (acc : MatchDetailsAcc) (row : MatchRow) : Except String MatchDetailsAcc :=
  match row.ll_match_id with
  | none => Except.ok acc
  | some mid =>
      if match_details_checkpoint acc.db row.id then Except.ok acc
      else
        match o.match_details mid with
        | none => Except.ok acc
        | some d =>
            if d.questions.isEmpty then Except.ok acc
            else if d.db_fail then Except.error "match_details db error"
            else
              let db := d.questions.foldl (fun db q =>
                let category_id :=
                  match q.category with
                  | some c => if c != "" then dictGet cats c else none
                  | none => none
                insertOrReplaceMatchQuestion db row.id q category_id) acc.db
              Except.ok ⟨db, acc.scraped + 1⟩

def scrape_match_details_stage (o : Oracle) (season : Nat) (db : DB)
    (result : ScrapeResultM) : Except String (DB × ScrapeResultM) :=
  match seasonIdByNumber db season with
  | none => Except.ok (db, result)
  | some season_id =>
      let to_scrape := db.matches.filter (fun m =>
        m.season_id == season_id && m.ll_match_id.isSome)
      let cats := categoriesDict db
      match foldE (match_details_write_one o cats) ⟨db, 0⟩ to_scrape with
      | Except.error e => Except.error e
      | Except.ok acc =>
          Except.ok (acc.db, result.count "match_details" (acc.scraped : Int))

structure ProfilesAcc where
  db : DB
  scraped : Nat
  skipped_no_id : Nat
  /-- instrumentation: the `ll_id`s for which `scrape_player_profile_by_id`
  (an HTTP fetch) was actually invoked, in order. -/
  fetch_log : List Nat
  deriving Repr, DecidableEq

/-- Stage 5 body, one rundle player: skip without a site id; skip when 15 or
more lifetime stat rows are already present; otherwise fetch the profile and
write its category rows outside any `try` — a database failure propagates. -/
def profiles_write_one (o : Oracle) (cats : List (String × Nat))
    (acc : ProfilesAcc) (player : PlayerRow) : Except String ProfilesAcc :=
  match player.ll_id with
  | none => Except.ok { acc with skipped_no_id := acc.skipped_no_id + 1 }
  | some ll =>
      if 15 ≤ lifetimeStatCount acc.db player.id then Except.ok acc
      else
        let acc := { acc with fetch_log := acc.fetch_log ++ [ll] }
        match o.profiles ll with
        | none => Except.ok acc
        | some profile =>
            if profile.categories.isEmpty then Except.ok acc
            else if profile.db_fail then Except.error "profiles db error"
            else
              let db := profile.categories.foldl (fun db cat =>
                match dictGet cats cat.name with
                | some cat_id =>
                    insertOrReplaceLifetimeStat db player.id cat_id cat.pct cat.total
                | none => db) acc.db
              Except.ok { acc with db := db, scraped := acc.scraped + 1 }

def scrape_profiles_stage (o : Oracle) (rundle_id : Nat) (db : DB)
    (result : ScrapeResultM) : Except String (DB × ScrapeResultM) :=
  let players := rundle_player_rows db rundle_id
  let cats := categoriesDict db
  match foldE (profiles_write_one o cats) ⟨db, 0, 0, []⟩ players with
  | Except.error e => Except.error e
  | Except.ok acc =>
      Except.ok (acc.db,
        ((result.count "profiles" (acc.scraped : Int)).count
          "profiles_skipped_no_id" (acc.skipped_no_id : Int)))

/-- Outcome of one day of the rundle-answers loop. -/
structure RundleDayOutcome where
  db : DB
  day_answers : Nat
  fetched : Bool

/-- One turn of the `for q_num in range(1, 7)` loop of the rundle-answers
stage: resolve the question id; inside a `try/except Exception: pass`,
`INSERT OR REPLACE` the answer (the scraped correctness and defense values
are read with defaults) — a database failure is silently swallowed. -/
def rundle_answer_qnum_step (qmap : List (Nat × Nat)) (pa : ScrapedPlayerAnswer)
    (player_id : Nat) (st : DB × Nat) (q_num : Nat) : DB × Nat :=
  match dictGet qmap q_num with
  | none => st
  | some q_id =>
      if pa.db_fail then st
      else
        (insertOrReplaceAnswer st.1 player_id q_id
            (pa.q_correct.getD (q_num - 1) false)
            (some (pa.q_defense.getD (q_num - 1) 0)),
         st.2 + 1)

/-- Stage 6 inner loop, one scraped player-answer record: resolve the player
through the map built at stage start; unknown ids are skipped. -/
def rundle_answers_write_player (llmap : List (Nat × Nat))
    (qmap : List (Nat × Nat)) (st : DB × Nat) (pa : ScrapedPlayerAnswer) :
    DB × Nat :=
  match pa.ll_id.bind (dictGet llmap) with
  | none => st
  | some player_id =>
      (List.range' 1 6).foldl (rundle_answer_qnum_step qmap pa player_id) st

/-- One scraped question of a rundle-answers day: strip the abbreviated
label, map it through `CATEGORY_MAP` with the raw label as fallback, look
the canonical name up in the categories dict, and run the COALESCE
enrichment UPDATE. -/
def rundle_question_update (cats : List (String × Nat)) (season_id day : Nat)
    (db : DB) (q : ScrapedQuestion) : DB :=
  let cat_abbrev := pyStrip (q.category.getD "")
  let cat_name := (categoryMapGet cat_abbrev).getD cat_abbrev
  let cat_id := dictGet cats cat_name
  updateQuestionsWhere db season_id day q.num q.text q.answer cat_id

/-- Stage 6 body, one match day (`_scrape_rundle_answers` day loop): skip the
day when the distinct-player answer count already reaches the rundle size
minus two; otherwise fetch, run the COALESCE question enrichment, and write
the per-player answers. -/
def processRundleDay (o : Oracle) (season_id rundle_id : Nat)
    (llmap : List (Nat × Nat)) (cats : List (String × Nat)) (n : Nat)
    (db : DB) (day : Nat) : RundleDayOutcome :=
  let existing_count := existingDistinctCount db season_id day rundle_id
  if (existing_count : ℤ) ≥ (n : ℤ) - 2 then ⟨db, 0, false⟩
  else
    match o.rundle_days day with
    | none => ⟨db, 0, true⟩
    | some data =>
        let db := data.questions.foldl
          (rundle_question_update cats season_id day) db
        let qmap := q_num_to_id db season_id day
        let w := data.player_answers.foldl
          (rundle_answers_write_player llmap qmap) (db, 0)
        ⟨w.1, w.2, true⟩

def scrape_rundle_answers_stage (o : Oracle) (season : Nat) (rundle_id : Nat)
    (db : DB) (result : ScrapeResultM) : DB × ScrapeResultM :=
  match seasonIdByNumber db season with
  | none => (db, result)
  | some season_id =>
      let llmap := ll_id_to_player db
      let cats := categoriesDict db
      let n := rundle_player_count db rundle_id
      let w := (List.range' 1 25).foldl (fun (st : DB × Nat) day =>
        let out := processRundleDay o season_id rundle_id llmap cats n st.1 day
        (out.db, st.2 + out.day_answers)) (db, 0)
      (w.1, result.count "rundle_answers" (w.2 : Int))

/-- The operator-selectable stage toggles of `scrape_full`. -/
structure StageToggles where
  include_standings : Bool
  include_my_answers : Bool
  include_match_results : Bool
  include_match_details : Bool
  include_profiles : Bool
  include_rundle_answers : Bool
  deriving Repr, DecidableEq

/-- `LLScraper.scrape_full`: ensure the season and rundle rows, then run the
six stages in sequence.  There is no exception handling at this level, so an
uncaught exception inside a stage aborts the remaining stages. -/
def scrape_full (o : Oracle) (season_number : Nat) (rundle : String)
    (t : StageToggles) (db : DB) : Except String (DB × ScrapeResultM) :=
  let result := ScrapeResultM.init
  let w0 := get_or_create_season db season_number
  let w1 := ensure_rundle w0.1 w0.2 rundle
  let db := w1.1
  let rundle_id := w1.2
  match (if t.include_standings then scrape_standings_stage o rundle_id db result
         else Except.ok (db, result)) with
  | Except.error e => Except.error e
  | Except.ok (db, result) =>
      let s2 := if t.include_my_answers then
          scrape_my_answers_stage o season_number db result else (db, result)
      let s3 := if t.include_match_results then
          scrape_match_results_stage o season_number s2.1 s2.2 else s2
      match (if t.include_match_details then
             scrape_match_details_stage o season_number s3.1 s3.2
             else Except.ok s3) with
      | Except.error e => Except.error e
      | Except.ok (db, result) =>
          match (if t.include_profiles then
                 scrape_profiles_stage o rundle_id db result
                 else Except.ok (db, result)) with
          | Except.error e => Except.error e
          | Except.ok (db, result) =>
              Except.ok (if t.include_rundle_answers then
                scrape_rundle_answers_stage o season_number rundle_id db result
                else (db, result))

/-! ## Page extractors (`questions.py`, `players.py`, `matches.py`)

HTML navigation (soup traversal, table/row/cell selection) is abstracted:
an extractor is embedded as the function from the already-selected cell
texts to the typed records it emits. -/

/-- Python's `needle in hay` on strings: contiguous-substring containment. -/
def listContainsSub (needle : List Char) : List Char → Bool
  | [] => needle.isEmpty
  | h :: t => needle.isPrefixOf (h :: t) || listContainsSub needle t

def pyIn (needle hay : String) : Bool :=
  listContainsSub needle.toList hay.toList

/-- The `variations` dict of `normalize_category` (`questions.py`), in
insertion order. -/
def category_variations : List (String × String) :=
  [("am. history", "American History"), ("american hist", "American History"),
   ("world hist", "World History"), ("bus/econ", "Business/Economics"),
   ("business", "Business/Economics"), ("food", "Food/Drink"),
   ("games", "Games/Sport"), ("sport", "Games/Sport"),
   ("sports", "Games/Sport"), ("pop", "Pop Music"),
   ("classical", "Classical Music"), ("misc", "Miscellaneous"),
   ("tv", "Television")]

/-- `normalize_category` (`questions.py`): first category whose lower-case
name equals or substring-matches the lower-cased input in either direction,
then the known-variation table, else `None`. -/
def normalize_category (raw_category : String) : Option String :=
  let raw_lower := pyStrip (pyToLower raw_category)
  match LL_CATEGORIES.find? (fun category =>
      pyToLower category == raw_lower ||
      pyIn raw_lower (pyToLower category) || pyIn (pyToLower category) raw_lower) with
  | some category => some category
  | none => (category_variations.find? (fun kv => pyIn kv.1 raw_lower)).map (·.2)

structure MatchDayQuestion where
  number : Nat
  category : String
  text : String
  answer : Option String
  deriving Repr, DecidableEq

/-- The question record `parse_match_day_page` builds from a `div.ind-Q20`
whose text matched `Q(\d+)\.([A-Z\s/]+)\s*-\s*(.+)` as
`(q_num, raw_category, q_text)`:
`"category": normalize_category(raw_category) or raw_category`. -/
def mk_match_day_question (q_num : Nat) (raw_category q_text : String) :
    MatchDayQuestion :=
  { number := q_num,
    category := (normalize_category raw_category).getD raw_category,
    text := q_text, answer := none }

/-- Value of a run of decimal digit characters. -/
def natOfDigits (l : List Char) : Nat :=
  l.foldl (fun a c => a * 10 + (c.toNat - 48)) 0

/-- `re.match(r'(\d+)-(\d+)', career_text)` of
`parse_player_profile_by_id`: anchored at the start, trailing text ignored. -/
def parseCareer (s : String) : Option (Nat × Nat) :=
  let l := s.toList
  let d1 := l.takeWhile Char.isDigit
  let r1 := l.dropWhile Char.isDigit
  if d1.isEmpty then none
  else
    match r1 with
    | '-' :: r2 =>
        let d2 := r2.takeWhile Char.isDigit
        if d2.isEmpty then none else some (natOfDigits d1, natOfDigits d2)
    | _ => none

/-- One iteration of the category-table row loop of
`parse_player_profile_by_id` (`players.py`), over the row's
`get_text(strip=True)` cell texts: a row with fewer than three cells is
skipped; the upper-cased first cell is looked up in `CATEGORY_MAP` and the
row is skipped when the lookup misses (`if not cat_name: continue`); a
career cell not matching `(\d+)-(\d+)` is skipped; otherwise a category
stat is produced with `pct = correct / total` (0 when `total` is 0). -/
def profile_row_stat (cells : List String) : Option ProfileCategory :=
  if cells.length < 3 then none
  else
    let cat_abbrev := pyToUpper (cells.getD 0 "")
    match categoryMapGet cat_abbrev with
    | none => none
    | some cat_name =>
        let career_text := cells.getD 1 ""
        match parseCareer career_text with
        | none => none
        | some ct =>
            let pct : ℚ := if 0 < ct.2 then (ct.1 : ℚ) / (ct.2 : ℚ) else 0
            some { name := cat_name, correct := ct.1, total := ct.2, pct := pct }

def parse_profile_rows (rows : List (List String)) : List ProfileCategory :=
  rows.filterMap profile_row_stat

/-- `parse_player_profile_by_id` over the category table's data rows:
`{'categories': categories} if categories else None`. -/
def parse_player_profile_by_id (rows : List (List String)) :
    Option (List ProfileCategory) :=
  let categories := parse_profile_rows rows
  if categories.isEmpty then none else some categories

/-- `re.match(r'(\d+)\((\d+)\)\s*(\d+)\((\d+)\)', text.replace('\xa0', ' '))`
of `scrape_match_results` (`matches.py`): non-breaking spaces normalised,
anchored at the start, greedy digit runs, any whitespace between the two
`score(tca)` blocks, trailing text ignored. -/
def score_cell_match (text : String) : Option (Nat × Nat × Nat × Nat) :=
  let l := text.toList.map (fun c => if c = '\xA0' then ' ' else c)
  let d1 := l.takeWhile Char.isDigit
  let r1 := l.dropWhile Char.isDigit
  if d1.isEmpty then none else
  match r1 with
  | '(' :: r2 =>
      let d2 := r2.takeWhile Char.isDigit
      let r3 := r2.dropWhile Char.isDigit
      if d2.isEmpty then none else
      match r3 with
      | ')' :: r4 =>
          let r5 := r4.dropWhile isPySpace
          let d3 := r5.takeWhile Char.isDigit
          let r6 := r5.dropWhile Char.isDigit
          if d3.isEmpty then none else
          match r6 with
          | '(' :: r7 =>
              let d4 := r7.takeWhile Char.isDigit
              let r8 := r7.dropWhile Char.isDigit
              if d4.isEmpty then none else
              match r8 with
              | ')' :: _ =>
                  some (natOfDigits d1, natOfDigits d2, natOfDigits d3, natOfDigits d4)
              | _ => none
          | _ => none
      | _ => none
  | _ => none

/-- The row-level extraction of `scrape_match_results`: scan the row's cell
texts and build the match record from the first cell matching the score
pattern (the loop `break`s at the first hit).  `db_fail` is oracle
instrumentation only; a freshly extracted record carries `false`. -/
def row_to_match (day : Nat) (p1_name p2_name : String) (ll_match_id : Option Nat)
    (cells : List String) : Option MatchScrape :=
  cells.findSome? (fun text =>
    (score_cell_match text).map (fun q =>
      { match_day := day, player1 := p1_name, player2 := p2_name,
        p1_score := (q.1 : Int), p1_tca := (q.2.1 : Int),
        p2_score := (q.2.2.1 : Int), p2_tca := (q.2.2.2 : Int),
        ll_match_id := ll_match_id, db_fail := false }))

/-! ## Session manager and request pacing (`auth.py`, `matches.py`)

Idealised time: the only way time advances is an explicit sleep, so the
inter-request gaps produced here are the guaranteed minimum gaps. -/

def REQUEST_DELAY : ℚ := 3 / 2

structure SessionState where
  last_request_time : ℚ
  now : ℚ
  deriving Repr, DecidableEq

/-- `LLSession._rate_limit`: if less than `REQUEST_DELAY` elapsed since the
last stamped request, sleep the remainder; then stamp the current time. -/
def rate_limit (s : SessionState) : SessionState :=
  let elapsed := s.now - s.last_request_time
  let now' :=
    if elapsed < REQUEST_DELAY then s.now + (REQUEST_DELAY - elapsed) else s.now
  { last_request_time := now', now := now' }

inductive NetAction where
  /-- a request through `LLSession.get`/`login`/`logout`/`_verify_login`:
  preceded by `_rate_limit()`. -/
  | sessionGet
  /-- `scrape_my_answers`: `session.session.post(...)` on the underlying
  `requests.Session`, issued without touching the limiter. -/
  | rawPost
  /-- `time.sleep(d)`. -/
  | sleepFor (d : ℚ)
  deriving Repr, DecidableEq

/-- One action: the new session state, and the issue time when the action is
a request. -/
def netStep (s : SessionState) : NetAction → SessionState × Option ℚ
  | NetAction.sessionGet => let s' := rate_limit s; (s', some s'.now)
  | NetAction.rawPost => (s, some s.now)
  | NetAction.sleepFor d => ({ s with now := s.now + d }, none)

/-- The issue times of all requests in an action sequence. -/
def requestTimes (s : SessionState) : List NetAction → List ℚ
  | [] => []
  | a :: l =>
      match netStep s a with
      | (s', some t) => t :: requestTimes s' l
      | (s', none) => requestTimes s' l

/-- The request/sleep sequence of the `scrape_my_answers` day loop: one raw
POST per day, then `time.sleep(0.5)`. -/
def my_answers_actions (days : Nat) : List NetAction :=
  (List.range days).flatMap
    (fun _ => [NetAction.rawPost, NetAction.sleepFor (1 / 2)])

/-! ## Commit granularity (`runner.py`)

Each stage's loop is abstracted to its sequence of unit writes and
`conn.commit()` calls; a `unitWrite` marks one loop iteration's database
writes (one standings row, one answer, one match, one detailed match, one
player profile, one match day). -/

inductive CommitEvent where
  | unitWrite
  | dbCommit
  deriving Repr, DecidableEq

def pendingStep (acc : Nat) : CommitEvent → Nat
  | CommitEvent.unitWrite => acc + 1
  | CommitEvent.dbCommit => 0

/-- The number of units with uncommitted writes at every interruption point
of a trace: before the first event, between any two events, and at the
end. -/
def pendings (acc : Nat) : List CommitEvent → List Nat
  | [] => [acc]
  | e :: l => acc :: pendings (pendingStep acc e) l

/-- `_scrape_standings`, `_scrape_my_answers`, `_scrape_match_results`: all
units written in the loop, a single `conn.commit()` after it. -/
def single_commit_trace (n : Nat) : List CommitEvent :=
  (List.range n).map (fun _ => CommitEvent.unitWrite) ++ [CommitEvent.dbCommit]

/-- The loop shape of `_scrape_match_details` (`m = 50`) and
`_scrape_profiles` (`m = 10`): a commit after every `m`-th iteration
(`if (i + 1) % m == 0: conn.commit()`), and a final commit after the
loop. -/
def modulo_commit_trace (m n : Nat) : List CommitEvent :=
  (List.range n).flatMap (fun i =>
    CommitEvent.unitWrite ::
      (if (i + 1) % m == 0 then [CommitEvent.dbCommit] else []))
    ++ [CommitEvent.dbCommit]

def match_details_trace (n : Nat) : List CommitEvent := modulo_commit_trace 50 n

def profiles_trace (n : Nat) : List CommitEvent := modulo_commit_trace 10 n

/-- `_scrape_rundle_answers`: `conn.commit()` inside the day loop, right
after each processed day's writes; no commit after the loop. -/
def rundle_answers_trace (n : Nat) : List CommitEvent :=
  (List.range n).flatMap (fun _ => [CommitEvent.unitWrite, CommitEvent.dbCommit])

/-! ## Re-run analysis helpers (my-answers stage)

The pieces needed to compare a stage run against an immediate second run:
the loop of `_scrape_my_answers`, with the question id resolved up front,
splits into an answers-table fold and a questions-table fold. -/

/-- The non-surrogate columns of an answers row: everything except the
SQLite rowid/`id`. -/
def answerPayload (a : AnswerRow) : Nat × Nat × Bool × Option Int :=
  (a.player_id, a.question_id, a.correct, a.defense_points_assigned)

/-- The items of the `_scrape_my_answers` loop that reach the write path:
question id resolved through the precomputed map, units whose write fails
excluded (they only append an error). -/
def resolvedMyWrites (qmap : List ((Nat × Nat) × Nat)) (l : List MyAnswerScrape) :
    List (Nat × MyAnswerScrape) :=
  l.filterMap (fun ans =>
    match dictGet qmap (ans.match_day, ans.question_number) with
    | none => none
    | some q_id => if ans.db_fail then none else some (q_id, ans))

/-- The answers-table component of one resolved write: the
`INSERT OR REPLACE` on `(answers, next id)`. -/
def answersInsStep (pid : Nat) (st : List AnswerRow × Nat)
    (w : Nat × MyAnswerScrape) : List AnswerRow × Nat :=
  (st.1.filter (fun a => !(a.player_id == pid && a.question_id == w.1)) ++
     [⟨st.2, pid, w.1, w.2.correct, none⟩],
   st.2 + 1)

/-- The questions-table component of one resolved write, per question row:
the guarded COALESCE enrichment (the scraped text/answer strings are bound
as non-NULL parameters, so the coalesce resolves to them). -/
def myAnswerQStep (w : Nat × MyAnswerScrape) (q : QuestionRow) : QuestionRow :=
  if (w.2.question_text != "" || w.2.correct_answer != "") && q.id == w.1 then
    { q with question_text := coalesce (some w.2.question_text) q.question_text,
             correct_answer := coalesce (some w.2.correct_answer) q.correct_answer }
  else q

def myQFold (L : List (Nat × MyAnswerScrape)) (q : QuestionRow) : QuestionRow :=
  L.foldl (fun q w => myAnswerQStep w q) q

/-- The last resolved write that actually enriches question `qid`. -/
def lastQWrite (L : List (Nat × MyAnswerScrape)) (qid : Nat) :
    Option (Nat × MyAnswerScrape) :=
  L.reverse.find? (fun w =>
    (w.2.question_text != "" || w.2.correct_answer != "") && w.1 == qid)

/-- The answers-row payloads a resolved-write list leaves behind: one row
per question id, the last write winning. -/
def canonicalMyPayloads (pid : Nat) :
    List (Nat × MyAnswerScrape) → List (Nat × Nat × Bool × Option Int)
  | [] => []
  | w :: L =>
      if (L.map (fun v => v.1)).contains w.1 then canonicalMyPayloads pid L
      else (pid, w.1, w.2.correct, none) :: canonicalMyPayloads pid L

/-! ## Concrete instances

A small season-107 store and oracles used to instantiate the theorems. -/

def sampleQuestion (i num : Nat) : QuestionRow :=
  { id := i, season_id := 1, match_day := 1, question_number := num,
    question_text := some "old text", correct_answer := none, category_id := none }

def sampleDB : DB :=
  { seasons := [⟨1, 107⟩],
    players := [⟨1, "alice", some 100⟩, ⟨2, "bob", some 200⟩, ⟨3, "carol", none⟩,
                ⟨4, "dan", none⟩, ⟨5, "eve", none⟩],
    categories := [⟨1, "American History"⟩, ⟨2, "Geography"⟩],
    rundles := [⟨1, 1, "LL", "C", "C_Skyline"⟩],
    player_rundles := [⟨1, 1, some 1⟩, ⟨2, 1, some 2⟩, ⟨3, 1, some 3⟩,
                       ⟨4, 1, some 4⟩, ⟨5, 1, some 5⟩],
    questions := [sampleQuestion 11 1, sampleQuestion 12 2, sampleQuestion 13 3,
                  sampleQuestion 14 4, sampleQuestion 15 5, sampleQuestion 16 6],
    answers := [],
    «matches» := [],
    match_questions := [],
    player_lifetime_stats := [],
    nextSeasonId := 2, nextPlayerId := 6, nextRundleId := 2,
    nextAnswerId := 1, nextMatchId := 1, nextMatchQuestionId := 1 }

/-- `sampleDB` with a two-player rundle, so the checkpoint tolerance is met
with zero recorded answers. -/
def sampleDBTwo : DB :=
  { sampleDB with player_rundles := [⟨1, 1, some 1⟩, ⟨2, 1, some 2⟩] }

/-- `sampleDB` with player 1 already holding 15 of the 18 lifetime category
stat rows. -/
def sampleDBLifetime15 : DB :=
  { sampleDB with
    player_lifetime_stats := (List.range 15).map (fun i => ⟨1, i + 1, 0, 10⟩) }

def samplePA (ll : Nat) : ScrapedPlayerAnswer :=
  { ll_id := some ll, q_correct := [true, false, true, false, true, false],
    q_defense := [1, 2, 3, 1, 2, 3], db_fail := false }

def sampleDay : RundleDayData :=
  { questions := [{ num := 1, category := some "GEOGRAPHY",
                    text := some "new text", answer := some "Paris" }],
    player_answers := [samplePA 100, samplePA 999] }

def oracleBase : Oracle :=
  { config_username := "alice",
    players_stats := [], my_answers := [], match_results := [],
    match_details := fun _ => none, profiles := fun _ => none,
    rundle_days := fun _ => none }

def oracleRundle : Oracle :=
  { oracleBase with rundle_days := fun d => if d == 1 then some sampleDay else none }

/-- A day whose only player-answer unit has a failing database write
(`except Exception: pass` territory). -/
def oracleSilentFail : Oracle :=
  { oracleBase with
    rundle_days := fun d =>
      if d == 1 then
        some { questions := [],
               player_answers := [{ samplePA 100 with db_fail := true }] }
      else none }

/-- A standings row whose write fails: the write sits outside any `try`. -/
def oracleStandingsFail : Oracle :=
  { oracleBase with players_stats := [⟨"zed", none, some 1, true⟩] }

def oracleMyAnswers : Oracle :=
  { oracleBase with
    my_answers := [{ match_day := 1, question_number := 1, correct := true,
                     question_text := "scraped text", correct_answer := "Paris",
                     db_fail := false }] }

def oracleProfiles : Oracle :=
  { oracleBase with
    profiles := fun ll =>
      if ll == 100 then some ⟨[⟨"Geography", 5, 10, 1 / 2⟩], false⟩ else none }

def allToggles : StageToggles := ⟨true, true, true, true, true, true⟩

/-! # Claims -/

/-- C9: for a match-results row whose score cell text is `"4(4)  5(4)"`
(including when the spaces are non-breaking), the extractor yields a match
record with `player1_score = 4`, `player1_tca = 4`, `player2_score = 5`,
`player2_tca = 4` for the two players named in that row. -/
theorem score_cell_extraction_4454 :
    (row_to_match 3 "PlayerA" "PlayerB" (some 777)
        ["PlayerA", "4(4)  5(4)", "PlayerB"]).map
        (fun m => (m.player1, m.p1_score, m.p1_tca, m.player2, m.p2_score, m.p2_tca))
      = some ("PlayerA", 4, 4, "PlayerB", 5, 4)
    ∧ (row_to_match 3 "PlayerA" "PlayerB" (some 777)
        ["4(4)\xA0\xA05(4)"]).map
        (fun m => (m.player1, m.p1_score, m.p1_tca, m.player2, m.p2_score, m.p2_tca))
      = some ("PlayerA", 4, 4, "PlayerB", 5, 4) := by
  exact ⟨by decide, by decide⟩

/-- The `fetched` flag of one rundle-answers day is exactly the negation of
the checkpoint condition `existing_count >= rundle_player_count - 2`
(integer arithmetic, as in Python). -/
theorem processRundleDay_fetched_eq (o : Oracle) (season_id rundle_id : Nat)
    (llmap : List (Nat × Nat)) (cats : List (String × Nat)) (n : Nat)
    (db : DB) (day : Nat) :
    (processRundleDay o season_id rundle_id llmap cats n db day).fetched
      = !decide ((n : ℤ) - 2 ≤ (existingDistinctCount db season_id day rundle_id : ℤ)) := by
  unfold processRundleDay
  by_cases h : (existingDistinctCount db season_id day rundle_id : ℤ) ≥ (n : ℤ) - 2
  · simp [h]
  · cases ho : o.rundle_days day <;> simp [h, ho]

/-- C1: in the rundle-answers stage, a match day is skipped (no fetch, no
writes) iff the count of distinct rundle players already holding answers is
at least the rundle size minus two; with the size minus three or fewer the
day is fetched. -/
theorem rundle_day_checkpoint_tolerance (o : Oracle) (season_id rundle_id : Nat)
    (llmap : List (Nat × Nat)) (cats : List (String × Nat)) (n : Nat)
    (db : DB) (day : Nat) :
    ((processRundleDay o season_id rundle_id llmap cats n db day).fetched = false ↔
       (n : ℤ) - 2 ≤ (existingDistinctCount db season_id day rundle_id : ℤ))
    ∧ ((processRundleDay o season_id rundle_id llmap cats n db day).fetched = true ↔
       (existingDistinctCount db season_id day rundle_id : ℤ) ≤ (n : ℤ) - 3)
    ∧ ((processRundleDay o season_id rundle_id llmap cats n db day).fetched = false →
       processRundleDay o season_id rundle_id llmap cats n db day
         = ⟨db, 0, false⟩) := by
  refine ⟨?_, ?_, ?_⟩
  · rw [processRundleDay_fetched_eq]
    by_cases h : (n : ℤ) - 2 ≤ (existingDistinctCount db season_id day rundle_id : ℤ) <;>
      simp [h]
  · rw [processRundleDay_fetched_eq]
    by_cases h : (n : ℤ) - 2 ≤ (existingDistinctCount db season_id day rundle_id : ℤ) <;>
      simp [h] <;> omega
  · intro hf
    rw [processRundleDay_fetched_eq] at hf
    have h : (n : ℤ) - 2 ≤ (existingDistinctCount db season_id day rundle_id : ℤ) := by
      by_contra hc
      simp [hc] at hf
    unfold processRundleDay
    simp [ge_iff_le, h]

/-- Witness for C1: in the two-player sample rundle with no recorded
answers, `0 ≥ 2 - 2` holds, so day 1 is skipped and the store is returned
untouched. -/
theorem rundle_day_checkpoint_tolerance_witness :
    processRundleDay oracleRundle 1 1 (ll_id_to_player sampleDBTwo)
        (categoriesDict sampleDBTwo) (rundle_player_count sampleDBTwo 1)
        sampleDBTwo 1 = ⟨sampleDBTwo, 0, false⟩ :=
  (rundle_day_checkpoint_tolerance oracleRundle 1 1 (ll_id_to_player sampleDBTwo)
    (categoriesDict sampleDBTwo) (rundle_player_count sampleDBTwo 1)
    sampleDBTwo 1).2.2 (by decide)

/-- C2 counterexample: the question-enrichment UPDATE overwrites a stored
non-empty text with a scraped *empty string* — SQL `COALESCE` keeps the old
value only for NULL, so "feeding an empty-string scraped value leaves the
stored value unchanged" fails on the code. -/
theorem question_enrichment_empty_string_overwrites :
    ((updateQuestionsWhere sampleDB 1 1 1 (some "") none none).questions.head?).map
        (fun q => q.question_text) = some (some "")
    ∧ (sampleDB.questions.head?).map (fun q => q.question_text)
        = some (some "old text") := by
  exact ⟨by decide, by decide⟩

/-- C2 (amended): a stored question field is overwritten exactly when the
newly scraped value is non-NULL: a NULL value leaves it unchanged, and any
non-NULL value — including the empty string — overwrites it. -/
theorem question_enrichment_coalesce (q : QuestionRow) (text answer : Option String)
    (cat : Option Nat) :
    ((text = none → (updateQuestionRow text answer cat q).question_text = q.question_text)
      ∧ ∀ v, text = some v → (updateQuestionRow text answer cat q).question_text = some v)
    ∧ ((answer = none →
          (updateQuestionRow text answer cat q).correct_answer = q.correct_answer)
      ∧ ∀ v, answer = some v →
          (updateQuestionRow text answer cat q).correct_answer = some v)
    ∧ ((cat = none → (updateQuestionRow text answer cat q).category_id = q.category_id)
      ∧ ∀ v, cat = some v → (updateQuestionRow text answer cat q).category_id = some v) := by
  refine ⟨⟨?_, ?_⟩, ⟨?_, ?_⟩, ⟨?_, ?_⟩⟩ <;>
    first
      | (intro h; subst h; simp [updateQuestionRow, coalesce])
      | (intro v h; subst h; simp [updateQuestionRow, coalesce])

/-- Witness for the amended C2: a NULL text leaves the stored text in place
while a non-NULL answer overwrites the stored answer. -/
theorem question_enrichment_coalesce_witness :
    (updateQuestionRow none (some "Paris") none (sampleQuestion 11 1)).question_text
      = (sampleQuestion 11 1).question_text
    ∧ (updateQuestionRow none (some "Paris") none (sampleQuestion 11 1)).correct_answer
      = some "Paris" :=
  ⟨(question_enrichment_coalesce (sampleQuestion 11 1) none (some "Paris") none).1.1 rfl,
   (question_enrichment_coalesce (sampleQuestion 11 1) none (some "Paris") none).2.1.2
     "Paris" rfl⟩

/-- C6 counterexample: a player holding exactly 15 of the 18 lifetime
category rows is skipped without a fetch (the code's staleness threshold is
`>= 15`), although 15 is below the full category count 18, for which the
claim requires a re-fetch. -/
theorem profile_threshold_15_counterexample :
    lifetimeStatCount sampleDBLifetime15 1 = 15
    ∧ lifetimeStatCount sampleDBLifetime15 1 < LL_CATEGORIES.length
    ∧ profiles_write_one oracleProfiles (categoriesDict sampleDBLifetime15)
        ⟨sampleDBLifetime15, 0, 0, []⟩ ⟨1, "alice", some 100⟩
      = Except.ok ⟨sampleDBLifetime15, 0, 0, []⟩ := by
  exact ⟨by decide, by decide, rfl⟩

/-- C6 (amended): the profiles stage refreshes a player's lifetime category
stats iff the player has a site id and fewer than 15 lifetime stat rows are
present — 15, not the full category count `LL_CATEGORIES.length = 18`; with
15 or more rows (or no site id) the player is skipped without a fetch. -/
theorem profile_refresh_threshold (o : Oracle) (cats : List (String × Nat))
    (acc : ProfilesAcc) (player : PlayerRow) :
    LL_CATEGORIES.length = 18
    ∧ (player.ll_id = none →
        profiles_write_one o cats acc player
          = Except.ok { acc with skipped_no_id := acc.skipped_no_id + 1 })
    ∧ (∀ ll, player.ll_id = some ll → 15 ≤ lifetimeStatCount acc.db player.id →
        profiles_write_one o cats acc player = Except.ok acc)
    ∧ (∀ ll, player.ll_id = some ll → lifetimeStatCount acc.db player.id < 15 →
        (∀ pd, o.profiles ll = some pd → pd.db_fail = false) →
        ∃ acc', profiles_write_one o cats acc player = Except.ok acc'
          ∧ acc'.fetch_log = acc.fetch_log ++ [ll]) := by
  refine ⟨by decide, ?_, ?_, ?_⟩
  · intro h
    unfold profiles_write_one
    rw [h]
  · intro ll hll hcount
    unfold profiles_write_one
    rw [hll]
    simp [hcount]
  · intro ll hll hcount hdf
    unfold profiles_write_one
    rw [hll]
    simp only [if_neg (by omega : ¬ 15 ≤ lifetimeStatCount acc.db player.id)]
    cases hp : o.profiles ll with
    | none => exact ⟨_, rfl, rfl⟩
    | some pd =>
        by_cases he : pd.categories.isEmpty
        · simp [he]
        · have hdf' := hdf pd hp
          simp [he, hdf']

/-- Witness for the amended C6: the 15-row player is skipped (no fetch, no
write), discharging the `15 ≤ count` hypothesis at the concrete store. -/
theorem profile_refresh_threshold_witness :
    profiles_write_one oracleProfiles (categoriesDict sampleDBLifetime15)
        ⟨sampleDBLifetime15, 2, 3, [5]⟩ ⟨1, "alice", some 100⟩
      = Except.ok ⟨sampleDBLifetime15, 2, 3, [5]⟩ :=
  (profile_refresh_threshold oracleProfiles (categoriesDict sampleDBLifetime15)
    ⟨sampleDBLifetime15, 2, 3, [5]⟩ ⟨1, "alice", some 100⟩).2.2.1 100 rfl (by decide)

/-- A successful `dictGet` returns the second component of some stored
pair. -/
theorem dictGet_mem_snd [BEq α] (l : List (α × β)) (k : α) (v : β)
    (h : dictGet l k = some v) : ∃ p, p ∈ l ∧ p.2 = v := by
  unfold dictGet at h
  obtain ⟨p, hp, hv⟩ := Option.map_eq_some'.mp h
  exact ⟨p, List.mem_reverse.mp (List.mem_of_find?_eq_some hp), hv⟩

/-- Whatever `normalize_category` returns is one of the 18 canonical
category names. -/
theorem normalize_category_mem (raw c : String)
    (h : normalize_category raw = some c) : c ∈ LL_CATEGORIES := by
  unfold normalize_category at h
  simp only [] at h
  cases hf : LL_CATEGORIES.find? (fun category =>
      pyToLower category == pyStrip (pyToLower raw) ||
      pyIn (pyStrip (pyToLower raw)) (pyToLower category) ||
      pyIn (pyToLower category) (pyStrip (pyToLower raw))) with
  | some cat =>
      rw [hf] at h
      cases h
      exact List.mem_of_find?_eq_some hf
  | none =>
      rw [hf] at h
      obtain ⟨kv, hkv, hv⟩ := Option.map_eq_some'.mp h
      have hmem := List.mem_of_find?_eq_some hkv
      have hall : ∀ kv ∈ category_variations, kv.2 ∈ LL_CATEGORIES := by decide
      exact hv ▸ hall kv hmem

/-- C7 counterexample: a profile-table row whose category label is not in
the alias table is dropped by `parse_player_profile_by_id` — the extraction
result carries neither a canonical name nor the raw label. -/
theorem profile_unmapped_category_dropped :
    categoryMapGet "XYZ" = none
    ∧ parse_profile_rows [["XYZ", "10-20", "x"]] = []
    ∧ parse_player_profile_by_id [["XYZ", "10-20", "x"]] = none := by
  exact ⟨by decide, by decide, by decide⟩

/-- C7 (amended): the match-day question extractor and the rundle-answers
category mapping preserve an unmapped label as raw text (the record always
carries the canonical name or the raw label), but
`parse_player_profile_by_id` drops any row whose abbreviated label misses
the alias table. -/
theorem category_label_preservation :
    (∀ q_num raw q_text, (mk_match_day_question q_num raw q_text).category = raw
       ∨ (mk_match_day_question q_num raw q_text).category ∈ LL_CATEGORIES)
    ∧ (∀ ab, (categoryMapGet ab).getD ab = ab
       ∨ (categoryMapGet ab).getD ab ∈ CATEGORY_MAP.map (fun p => p.2))
    ∧ (∀ cells, 3 ≤ cells.length →
       categoryMapGet (pyToUpper (cells.getD 0 "")) = none →
       profile_row_stat cells = none) := by
  refine ⟨?_, ?_, ?_⟩
  · intro q_num raw q_text
    unfold mk_match_day_question
    cases hn : normalize_category raw with
    | none => left; simp
    | some c => right; simpa using normalize_category_mem raw c hn
  · intro ab
    cases hm : categoryMapGet ab with
    | none => left; simp
    | some c =>
        right
        obtain ⟨p, hp, hv⟩ := dictGet_mem_snd CATEGORY_MAP ab c hm
        simpa using List.mem_map.mpr ⟨p, hp, hv⟩
  · intro cells h3 hnone
    unfold profile_row_stat
    rw [if_neg (by omega)]
    simp only []
    rw [hnone]

/-- Witness for the amended C7: a canonical label survives question
extraction, and a concrete unmapped profile row is dropped. -/
theorem category_label_preservation_witness :
    ((mk_match_day_question 1 "GEOGRAPHY" "What?").category = "GEOGRAPHY"
      ∨ (mk_match_day_question 1 "GEOGRAPHY" "What?").category ∈ LL_CATEGORIES)
    ∧ (3 ≤ (["ZZTOP", "1-2", "x"] : List String).length
      ∧ profile_row_stat ["ZZTOP", "1-2", "x"] = none) :=
  ⟨category_label_preservation.1 1 "GEOGRAPHY" "What?",
   by decide,
   category_label_preservation.2.2 ["ZZTOP", "1-2", "x"] (by decide) (by decide)⟩

/-- Splitting an interruption-point analysis at a trace concatenation. -/
theorem mem_pendings_append (l1 : List CommitEvent) :
    ∀ (acc : Nat) (l2 : List CommitEvent) (x : Nat),
      x ∈ pendings acc (l1 ++ l2) →
      x ∈ pendings acc l1 ∨ x ∈ pendings (l1.foldl pendingStep acc) l2 := by
  induction l1 with
  | nil => intro acc l2 x h; exact Or.inr h
  | cons e l ih =>
      intro acc l2 x h
      simp only [List.cons_append, pendings, List.mem_cons] at h
      rcases h with h | h
      · exact Or.inl (by simp [pendings, h])
      · rcases ih (pendingStep acc e) l2 x h with h' | h'
        · exact Or.inl (by simp [pendings, h'])
        · exact Or.inr h'

theorem mem_pendings_append_right (l1 : List CommitEvent) :
    ∀ (acc : Nat) (l2 : List CommitEvent) (x : Nat),
      x ∈ pendings (l1.foldl pendingStep acc) l2 →
      x ∈ pendings acc (l1 ++ l2) := by
  induction l1 with
  | nil => intro acc l2 x h; exact h
  | cons e l ih =>
      intro acc l2 x h
      simp only [List.cons_append, pendings, List.mem_cons]
      exact Or.inr (ih (pendingStep acc e) l2 x h)

theorem foldl_pendingStep_writes (n : Nat) :
    ∀ acc, ((List.range n).map (fun _ => CommitEvent.unitWrite)).foldl pendingStep acc
      = acc + n := by
  induction n with
  | zero => intro acc; simp
  | succ n ih =>
      intro acc
      rw [List.range_succ, List.map_append, List.foldl_append, ih]
      simp [pendingStep]
      omega

theorem mem_pendings_writes (n : Nat) :
    ∀ acc x, x ∈ pendings acc ((List.range n).map (fun _ => CommitEvent.unitWrite)) →
      x ≤ acc + n := by
  induction n with
  | zero =>
      intro acc x h
      simp [pendings] at h
      omega
  | succ n ih =>
      intro acc x h
      rw [List.range_succ, List.map_append] at h
      rcases mem_pendings_append _ _ _ _ h with h' | h'
      · have := ih acc x h'
        omega
      · rw [foldl_pendingStep_writes] at h'
        simp [pendings, pendingStep] at h'
        rcases h' with h' | h' <;> omega

/-- C5 counterexample: in the match-results stage (single commit after the
whole loop) there is an interruption point with two units of uncommitted
writes, so "an interruption at any point loses at most one unit's writes"
fails. -/
theorem per_unit_commit_counterexample :
    2 ∈ pendings 0 (single_commit_trace 2) := by decide

/-- `(n+1) % m` in terms of `n % m` when it does not wrap. -/
theorem succ_mod_of_ne_zero (m n : Nat) (hm : 2 ≤ m) (h : (n + 1) % m ≠ 0) :
    (n + 1) % m = n % m + 1 := by
  have h1 : (n + 1) % m = (n % m + 1 % m) % m := Nat.add_mod n 1 m
  have h2 : 1 % m = 1 := Nat.mod_eq_of_lt (by omega)
  have h3 : n % m < m := Nat.mod_lt _ (by omega)
  rcases Nat.lt_or_ge (n % m + 1) m with hlt | hge
  · rw [h1, h2, Nat.mod_eq_of_lt hlt]
  · have heq : n % m + 1 = m := by omega
    rw [h1, h2, heq, Nat.mod_self] at h
    exact absurd rfl h

theorem foldl_pendingStep_modulo (m : Nat) (hm : 2 ≤ m) :
    ∀ n, ((List.range n).flatMap (fun i =>
        CommitEvent.unitWrite ::
          (if (i + 1) % m == 0 then [CommitEvent.dbCommit] else []))).foldl
        pendingStep 0 = n % m := by
  intro n
  induction n with
  | zero => simp
  | succ n ih =>
      rw [List.range_succ, List.flatMap_append, List.foldl_append, ih]
      by_cases h : (n + 1) % m = 0
      · simp [h, pendingStep]
      · rw [succ_mod_of_ne_zero m n hm h]
        simp [h, pendingStep]

theorem mem_pendings_modulo (m : Nat) (hm : 2 ≤ m) :
    ∀ n x, x ∈ pendings 0 ((List.range n).flatMap (fun i =>
        CommitEvent.unitWrite ::
          (if (i + 1) % m == 0 then [CommitEvent.dbCommit] else []))) →
      x ≤ m := by
  intro n
  induction n with
  | zero =>
      intro x h
      simp [pendings] at h
      omega
  | succ n ih =>
      intro x h
      rw [List.range_succ, List.flatMap_append] at h
      rcases mem_pendings_append _ _ _ _ h with h' | h'
      · exact ih x h'
      · rw [foldl_pendingStep_modulo m hm] at h'
        have hlt : n % m < m := Nat.mod_lt _ (by omega)
        by_cases hz : (n + 1) % m = 0 <;>
          simp [hz, pendings, pendingStep] at h' <;>
          rcases h' with h' | h' <;> omega

theorem foldl_pendingStep_rundle (n : Nat) :
    ((List.range n).flatMap (fun _ =>
        [CommitEvent.unitWrite, CommitEvent.dbCommit])).foldl pendingStep 0 = 0 := by
  induction n with
  | zero => simp
  | succ k ih =>
      rw [List.range_succ, List.flatMap_append, List.foldl_append, ih]
      simp [pendingStep]

/-- The pending-units bound for the whole modulo-commit stage shape. -/
theorem mem_pendings_modulo_trace (m : Nat) (hm : 2 ≤ m) (n x : Nat)
    (h : x ∈ pendings 0 (modulo_commit_trace m n)) : x ≤ m := by
  unfold modulo_commit_trace at h
  rcases mem_pendings_append _ _ _ _ h with h' | h'
  · exact mem_pendings_modulo m hm n x h'
  · rw [foldl_pendingStep_modulo m hm] at h'
    have hlt : n % m < m := Nat.mod_lt _ (by omega)
    simp [pendings, pendingStep] at h'
    rcases h' with h' | h' <;> omega

/-- C5 (amended): only the rundle-answers stage commits after every unit
(pending writes never exceed one day); the match-details stage commits every
50 matches, the profiles stage every 10 players, and the standings,
my-answers and match-results stages commit once after the whole loop — so an
interruption there can lose the entire stage's writes. -/
theorem stage_commit_granularity :
    (∀ n, ∀ x ∈ pendings 0 (rundle_answers_trace n), x ≤ 1)
    ∧ (∀ n, ∀ x ∈ pendings 0 (match_details_trace n), x ≤ 50)
    ∧ (∀ n, ∀ x ∈ pendings 0 (profiles_trace n), x ≤ 10)
    ∧ (∀ n, ∀ x ∈ pendings 0 (single_commit_trace n), x ≤ n)
    ∧ (∀ n, n ∈ pendings 0 (single_commit_trace n)) := by
  refine ⟨?_, ?_, ?_, ?_, ?_⟩
  · intro n
    unfold rundle_answers_trace
    induction n with
    | zero => intro x h; simp [pendings] at h; omega
    | succ n ih =>
        intro x h
        rw [List.range_succ, List.flatMap_append] at h
        rcases mem_pendings_append _ _ _ _ h with h' | h'
        · exact ih x h'
        · rw [foldl_pendingStep_rundle] at h'
          simp [pendings, pendingStep] at h'
          rcases h' with h' | h' | h' <;> omega
  · intro n x h
    exact mem_pendings_modulo_trace 50 (by omega) n x (by simpa [match_details_trace] using h)
  · intro n x h
    exact mem_pendings_modulo_trace 10 (by omega) n x (by simpa [profiles_trace] using h)
  · intro n x h
    unfold single_commit_trace at h
    rcases mem_pendings_append _ _ _ _ h with h' | h'
    · have := mem_pendings_writes n 0 x h'
      omega
    · rw [foldl_pendingStep_writes] at h'
      simp [pendings, pendingStep] at h'
      rcases h' with h' | h' <;> omega
  · intro n
    unfold single_commit_trace
    apply mem_pendings_append_right
    rw [foldl_pendingStep_writes]
    simp [pendings]

/-- Witness for the amended C5: concrete interruption-point bounds for small
traces. -/
theorem stage_commit_granularity_witness :
    (1 ∈ pendings 0 (rundle_answers_trace 3) ∧
      ∀ x ∈ pendings 0 (rundle_answers_trace 3), x ≤ 1)
    ∧ 3 ∈ pendings 0 (single_commit_trace 3) :=
  ⟨⟨by decide, fun x hx => stage_commit_granularity.1 3 x hx⟩,
   stage_commit_granularity.2.2.2.2 3⟩

/-- C8 counterexample: two consecutive requests of the my-answers day loop
are only half a second apart — the raw POST path bypasses the limiter, so
"at least `REQUEST_DELAY` seconds elapse between any two consecutive
requests, with no request path exempt" fails. -/
theorem request_delay_bypass_counterexample :
    requestTimes ⟨0, 10⟩ (my_answers_actions 2) = [10, 21 / 2]
    ∧ (21 / 2 : ℚ) - 10 < REQUEST_DELAY := by
  constructor
  · simp [my_answers_actions, requestTimes, netStep, List.range_succ]
    norm_num
  · norm_num [REQUEST_DELAY]

/-- `_rate_limit` guarantees the stamped issue time is at least the delay
after the previous stamp, and records the issue time as the new stamp. -/
theorem rate_limit_bound (s : SessionState) :
    s.last_request_time + REQUEST_DELAY ≤ (rate_limit s).now
    ∧ (rate_limit s).last_request_time = (rate_limit s).now := by
  constructor
  · unfold rate_limit
    by_cases h : s.now - s.last_request_time < REQUEST_DELAY
    · simp only [if_pos h]
      linarith
    · simp only [if_neg h]
      push_neg at h
      linarith
  · rfl

theorem requestTimes_head_ge : ∀ (acts : List NetAction) (s : SessionState),
    NetAction.rawPost ∉ acts →
    ∀ t ∈ (requestTimes s acts).head?,
      s.last_request_time + REQUEST_DELAY ≤ t := by
  intro acts
  induction acts with
  | nil => intro s _ t ht; simp [requestTimes] at ht
  | cons a l ih =>
      intro s hno t ht
      cases a with
      | sessionGet =>
          simp [requestTimes, netStep] at ht
          rw [← ht]
          exact (rate_limit_bound s).1
      | rawPost => exact absurd (List.mem_cons_self _ _) hno
      | sleepFor d =>
          simp only [requestTimes, netStep] at ht
          have hno' : NetAction.rawPost ∉ l := fun h =>
            hno (List.mem_cons_of_mem _ h)
          exact ih { s with now := s.now + d } hno' t ht

theorem requestTimes_chain : ∀ (acts : List NetAction) (s : SessionState),
    NetAction.rawPost ∉ acts →
    List.Chain' (fun a b => a + REQUEST_DELAY ≤ b) (requestTimes s acts) := by
  intro acts
  induction acts with
  | nil => intro s _; simp [requestTimes]
  | cons a l ih =>
      intro s hno
      have hno' : NetAction.rawPost ∉ l := fun h => hno (List.mem_cons_of_mem _ h)
      cases a with
      | sessionGet =>
          have hshape : requestTimes s (NetAction.sessionGet :: l)
              = (rate_limit s).now :: requestTimes (rate_limit s) l := rfl
          rw [hshape, List.chain'_cons']
          refine ⟨?_, ih (rate_limit s) hno'⟩
          intro y hy
          have hb := requestTimes_head_ge l (rate_limit s) hno' y hy
          rw [(rate_limit_bound s).2] at hb
          exact hb
      | rawPost => exact absurd (List.mem_cons_self _ _) hno
      | sleepFor d =>
          have hshape : requestTimes s (NetAction.sleepFor d :: l)
              = requestTimes { s with now := s.now + d } l := rfl
          rw [hshape]
          exact ih _ hno'

/-- C8 (amended): every request routed through the session manager's
rate-limited path is at least `REQUEST_DELAY` after its predecessor, but the
my-answers stage posts directly on the underlying HTTP session, bypassing
the limiter, with only a fixed half-second sleep between match days. -/
theorem session_request_pacing :
    (∀ (s : SessionState) (acts : List NetAction), NetAction.rawPost ∉ acts →
      List.Chain' (fun a b => a + REQUEST_DELAY ≤ b) (requestTimes s acts))
    ∧ requestTimes ⟨0, 0⟩ (my_answers_actions 3) = [0, 1 / 2, 1] := by
  constructor
  · exact fun s acts h => requestTimes_chain acts s h
  · simp [my_answers_actions, requestTimes, netStep, List.range_succ]
    norm_num

/-- Witness for the amended C8: a concrete limiter-routed action sequence is
properly paced. -/
theorem session_request_pacing_witness :
    NetAction.rawPost ∉ [NetAction.sessionGet, NetAction.sessionGet]
    ∧ List.Chain' (fun a b => a + REQUEST_DELAY ≤ b)
        (requestTimes ⟨0, 0⟩ [NetAction.sessionGet, NetAction.sessionGet]) :=
  ⟨by simp, session_request_pacing.1 ⟨0, 0⟩ _ (by simp)⟩

/-- A successful `dictGet` finds a stored pair whose key matches. -/
theorem dictGet_mem_key_snd (l : List (Nat × Nat)) (k v : Nat)
    (h : dictGet l k = some v) : ∃ p, p ∈ l ∧ p.1 = k ∧ p.2 = v := by
  unfold dictGet at h
  obtain ⟨p, hp, hv⟩ := Option.map_eq_some'.mp h
  have hkey := List.find?_some hp
  simp only [beq_iff_eq] at hkey
  exact ⟨p, List.mem_reverse.mp (List.mem_of_find?_eq_some hp), hkey, hv⟩

/-- A hit in the stage-start `ll_id -> player id` map comes from a stored
player row carrying that site id. -/
theorem ll_id_to_player_mem (db : DB) (ll pid : Nat)
    (h : dictGet (ll_id_to_player db) ll = some pid) :
    ∃ p, p ∈ db.players ∧ p.id = pid ∧ p.ll_id = some ll := by
  obtain ⟨pr, hmem, hkey, hsnd⟩ := dictGet_mem_key_snd _ _ _ h
  unfold ll_id_to_player at hmem
  obtain ⟨p, hp, hmap⟩ := List.mem_filterMap.mp hmem
  obtain ⟨l0, hl0, heq⟩ := Option.map_eq_some'.mp hmap
  refine ⟨p, hp, ?_, ?_⟩
  · rw [← hsnd, ← heq]
  · rw [hl0, ← hkey, ← heq]

theorem insertOrReplaceAnswer_players (db : DB) (pid qid : Nat) (c : Bool)
    (dp : Option Int) : (insertOrReplaceAnswer db pid qid c dp).players = db.players :=
  rfl

theorem insertOrReplaceAnswer_mem (db : DB) (pid qid : Nat) (c : Bool)
    (dp : Option Int) :
    ∀ a ∈ (insertOrReplaceAnswer db pid qid c dp).answers,
      a ∈ db.answers ∨ a.player_id = pid := by
  intro a ha
  unfold insertOrReplaceAnswer at ha
  simp only [List.mem_append, List.mem_filter, List.mem_singleton] at ha
  rcases ha with ⟨ha, _⟩ | ha
  · exact Or.inl ha
  · subst ha
    exact Or.inr rfl

/-- One question-number turn of the rundle-answers inner loop: the player
table is untouched and every surviving answers row is pre-existing or
belongs to the resolved player. -/
theorem rundle_answer_qnum_step_inv (qmap : List (Nat × Nat))
    (pa : ScrapedPlayerAnswer) (pid : Nat) (st : DB × Nat) (q_num : Nat) :
    (rundle_answer_qnum_step qmap pa pid st q_num).1.players = st.1.players
    ∧ ∀ a ∈ (rundle_answer_qnum_step qmap pa pid st q_num).1.answers,
        a ∈ st.1.answers ∨ a.player_id = pid := by
  unfold rundle_answer_qnum_step
  cases dictGet qmap q_num with
  | none => exact ⟨rfl, fun a ha => Or.inl ha⟩
  | some q_id =>
      dsimp only
      by_cases hdf : pa.db_fail
      · rw [if_pos hdf]
        exact ⟨rfl, fun a ha => Or.inl ha⟩
      · rw [if_neg hdf]
        exact ⟨insertOrReplaceAnswer_players _ _ _ _ _,
          insertOrReplaceAnswer_mem _ _ _ _ _⟩

theorem rundle_answer_qnum_fold_inv (qmap : List (Nat × Nat))
    (pa : ScrapedPlayerAnswer) (pid : Nat) :
    ∀ (qs : List Nat) (st : DB × Nat),
      ((qs.foldl (rundle_answer_qnum_step qmap pa pid) st).1.players
        = st.1.players)
      ∧ ∀ a ∈ (qs.foldl (rundle_answer_qnum_step qmap pa pid) st).1.answers,
          a ∈ st.1.answers ∨ a.player_id = pid := by
  intro qs
  induction qs with
  | nil => exact fun st => ⟨rfl, fun a ha => Or.inl ha⟩
  | cons q qs ih =>
      intro st
      simp only [List.foldl_cons]
      obtain ⟨hp1, hm1⟩ := rundle_answer_qnum_step_inv qmap pa pid st q
      obtain ⟨hp2, hm2⟩ := ih (rundle_answer_qnum_step qmap pa pid st q)
      refine ⟨by rw [hp2, hp1], ?_⟩
      intro a ha
      rcases hm2 a ha with hin | hpid
      · rcases hm1 a hin with hin' | hpid'
        · exact Or.inl hin'
        · exact Or.inr hpid'
      · exact Or.inr hpid

/-- One player-answer record of the rundle-answers inner loop: the player
table is untouched and every surviving answers row was either already
present or belongs to a player id found through the stage-start map. -/
theorem rundle_answers_write_player_inv (llmap qmap : List (Nat × Nat))
    (st : DB × Nat) (pa : ScrapedPlayerAnswer) :
    (rundle_answers_write_player llmap qmap st pa).1.players = st.1.players
    ∧ ∀ a ∈ (rundle_answers_write_player llmap qmap st pa).1.answers,
        a ∈ st.1.answers ∨ ∃ ll, dictGet llmap ll = some a.player_id := by
  unfold rundle_answers_write_player
  cases hb : pa.ll_id.bind (dictGet llmap) with
  | none => exact ⟨rfl, fun a ha => Or.inl ha⟩
  | some pid =>
      obtain ⟨ll, _, hget⟩ := Option.bind_eq_some.mp hb
      obtain ⟨hp, hm⟩ := rundle_answer_qnum_fold_inv qmap pa pid (List.range' 1 6) st
      refine ⟨hp, ?_⟩
      intro a ha
      rcases hm a ha with hin | hpid
      · exact Or.inl hin
      · exact Or.inr ⟨ll, by rw [hget, hpid]⟩

/-- The question-enrichment fold of one rundle-answers day touches only the
questions table. -/
theorem rundle_questions_fold_preserves (season_id day : Nat)
    (cats : List (String × Nat)) :
    ∀ (l : List ScrapedQuestion) (db : DB),
      ((l.foldl (rundle_question_update cats season_id day) db).players
        = db.players)
      ∧ ((l.foldl (rundle_question_update cats season_id day) db).answers
        = db.answers) := by
  intro l
  induction l with
  | nil => exact fun db => ⟨rfl, rfl⟩
  | cons q l ih =>
      intro db
      simp only [List.foldl_cons]
      obtain ⟨hp, ha⟩ := ih (rundle_question_update cats season_id day db q)
      exact ⟨hp, ha⟩

/-- One rundle-answers day: the player table is untouched and every answers
row is either pre-existing or attributed through the stage-start map. -/
theorem processRundleDay_inv (o : Oracle) (season_id rundle_id : Nat)
    (llmap : List (Nat × Nat)) (cats : List (String × Nat)) (n : Nat)
    (db : DB) (day : Nat) :
    (processRundleDay o season_id rundle_id llmap cats n db day).db.players = db.players
    ∧ ∀ a ∈ (processRundleDay o season_id rundle_id llmap cats n db day).db.answers,
        a ∈ db.answers ∨ ∃ ll, dictGet llmap ll = some a.player_id := by
  unfold processRundleDay
  by_cases h : (existingDistinctCount db season_id day rundle_id : ℤ) ≥ (n : ℤ) - 2
  · rw [if_pos h]
    exact ⟨rfl, fun a ha => Or.inl ha⟩
  · rw [if_neg h]
    cases ho : o.rundle_days day with
    | none => exact ⟨rfl, fun a ha => Or.inl ha⟩
    | some data =>
        simp only []
        obtain ⟨hqp, hqa⟩ := rundle_questions_fold_preserves season_id day cats
          data.questions db
        have key : ∀ (pas : List ScrapedPlayerAnswer) (st : DB × Nat),
            ((pas.foldl (rundle_answers_write_player llmap
                (q_num_to_id (data.questions.foldl
                  (rundle_question_update cats season_id day) db) season_id day))
                st).1.players = st.1.players)
            ∧ ∀ a ∈ (pas.foldl (rundle_answers_write_player llmap
                (q_num_to_id (data.questions.foldl
                  (rundle_question_update cats season_id day) db) season_id day))
                st).1.answers,
                a ∈ st.1.answers ∨ ∃ ll, dictGet llmap ll = some a.player_id := by
          intro pas
          induction pas with
          | nil => exact fun st => ⟨rfl, fun a ha => Or.inl ha⟩
          | cons pa pas ih =>
              intro st
              simp only [List.foldl_cons]
              obtain ⟨hp1, hm1⟩ := rundle_answers_write_player_inv llmap _ st pa
              obtain ⟨hp2, hm2⟩ := ih (rundle_answers_write_player llmap _ st pa)
              refine ⟨by rw [hp2, hp1], ?_⟩
              intro a ha
              rcases hm2 a ha with hin | hq
              · rcases hm1 a hin with hin' | hq'
                · exact Or.inl hin'
                · exact Or.inr hq'
              · exact Or.inr hq
        obtain ⟨hp, hm⟩ := key data.player_answers
          (data.questions.foldl (rundle_question_update cats season_id day) db, 0)
        refine ⟨by rw [hp, hqp], ?_⟩
        intro a ha
        rcases hm a ha with hin | hq
        · rw [hqa] at hin
          exact Or.inl hin
        · exact Or.inr hq

theorem ScrapeResultM.count_errors (r : ScrapeResultM) (k : String) (n : Int) :
    (r.count k n).errors = r.errors := by
  unfold ScrapeResultM.count
  split <;> rfl

/-- C10: in the rundle-answers stage, answer rows are only written for
players whose site id is stored at the start of the stage: no player rows
are created, the error list is untouched, and every answers row after the
stage was either there before or belongs to a player who already had an
`ll_id` in the players table. -/
theorem rundle_answers_known_players_only (o : Oracle) (season rundle_id : Nat)
    (db : DB) (result : ScrapeResultM) :
    (scrape_rundle_answers_stage o season rundle_id db result).1.players = db.players
    ∧ (scrape_rundle_answers_stage o season rundle_id db result).2.errors = result.errors
    ∧ ∀ a ∈ (scrape_rundle_answers_stage o season rundle_id db result).1.answers,
        a ∈ db.answers
        ∨ ∃ p, p ∈ db.players ∧ p.id = a.player_id ∧ p.ll_id ≠ none := by
  unfold scrape_rundle_answers_stage
  cases hs : seasonIdByNumber db season with
  | none => exact ⟨rfl, rfl, fun a ha => Or.inl ha⟩
  | some season_id =>
      simp only []
      have key : ∀ (days : List Nat) (st : DB × Nat),
          st.1.players = db.players →
          (∀ a ∈ st.1.answers, a ∈ db.answers
            ∨ ∃ ll, dictGet (ll_id_to_player db) ll = some a.player_id) →
          ((days.foldl (fun (st : DB × Nat) day =>
              let out := processRundleDay o season_id rundle_id (ll_id_to_player db)
                (categoriesDict db) (rundle_player_count db rundle_id) st.1 day
              (out.db, st.2 + out.day_answers)) st).1.players = db.players)
          ∧ ∀ a ∈ ((days.foldl (fun (st : DB × Nat) day =>
              let out := processRundleDay o season_id rundle_id (ll_id_to_player db)
                (categoriesDict db) (rundle_player_count db rundle_id) st.1 day
              (out.db, st.2 + out.day_answers)) st).1.answers),
              a ∈ db.answers
              ∨ ∃ ll, dictGet (ll_id_to_player db) ll = some a.player_id := by
        intro days
        induction days with
        | nil => exact fun st hp hm => ⟨hp, hm⟩
        | cons day days ih =>
            intro st hp hm
            simp only [List.foldl_cons]
            obtain ⟨hp1, hm1⟩ := processRundleDay_inv o season_id rundle_id
              (ll_id_to_player db) (categoriesDict db)
              (rundle_player_count db rundle_id) st.1 day
            refine ih _ (by rw [hp1, hp]) ?_
            intro a ha
            rcases hm1 a ha with hin | hq
            · exact hm a hin
            · exact Or.inr hq
      obtain ⟨hp, hm⟩ := key (List.range' 1 25) (db, 0) rfl
        (fun a ha => Or.inl ha)
      refine ⟨hp, ScrapeResultM.count_errors result _ _, ?_⟩
      intro a ha
      rcases hm a ha with hin | ⟨ll, hget⟩
      · exact Or.inl hin
      · obtain ⟨p, hpmem, hpid, hll⟩ := ll_id_to_player_mem db ll a.player_id hget
        exact Or.inr ⟨p, hpmem, hpid, by rw [hll]; exact Option.some_ne_none ll⟩

set_option maxRecDepth 100000 in
/-- Witness for C10: in the sample run, the first written answers row is
attributed to player 1, who carried `ll_id = 100` at stage start. -/
theorem rundle_answers_known_players_only_witness :
    (⟨1, 1, 11, true, some 1⟩ : AnswerRow)
        ∈ (scrape_rundle_answers_stage oracleRundle 107 1 sampleDB
            ScrapeResultM.init).1.answers
    ∧ ((⟨1, 1, 11, true, some 1⟩ : AnswerRow) ∈ sampleDB.answers
        ∨ ∃ p, p ∈ sampleDB.players ∧ p.id = 1 ∧ p.ll_id ≠ none) :=
  ⟨by decide,
   (rundle_answers_known_players_only oracleRundle 107 1 sampleDB
      ScrapeResultM.init).2.2 ⟨1, 1, 11, true, some 1⟩ (by decide)⟩

/-! ### Error-propagation lemmas (claim C3) -/

/-- A fold in the `Except` monad succeeds when every unit succeeds from any
state. -/
theorem foldE_ok_of_units {σ α : Type} (f : σ → α → Except String σ) :
    ∀ (l : List α), (∀ a ∈ l, ∀ s, ∃ s', f s a = Except.ok s') →
      ∀ s, ∃ s', foldE f s l = Except.ok s' := by
  intro l
  induction l with
  | nil => exact fun _ s => ⟨s, rfl⟩
  | cons a l ih =>
      intro h s
      obtain ⟨s1, h1⟩ := h a (List.mem_cons_self _ _) s
      obtain ⟨s2, h2⟩ := ih (fun b hb => h b (List.mem_cons_of_mem _ hb)) s1
      exact ⟨s2, by rw [foldE, h1]; exact h2⟩

theorem standings_write_one_ok (rundle_id : Nat) (p : PlayerStanding)
    (hp : p.db_fail = false) :
    ∀ db, ∃ db', standings_write_one rundle_id db p = Except.ok db' := by
  intro db
  unfold standings_write_one
  rw [if_neg (by simp [hp])]
  exact ⟨_, rfl⟩

theorem scrape_standings_stage_ok (o : Oracle) (rundle_id : Nat) (db : DB)
    (result : ScrapeResultM)
    (h : ∀ p ∈ o.players_stats, p.db_fail = false) :
    ∃ db' res', scrape_standings_stage o rundle_id db result = Except.ok (db', res')
      ∧ res'.errors = result.errors := by
  unfold scrape_standings_stage
  obtain ⟨db', hok⟩ := foldE_ok_of_units (standings_write_one rundle_id)
    o.players_stats (fun p hp s => standings_write_one_ok rundle_id p (h p hp) s) db
  rw [hok]
  exact ⟨db', _, rfl, ScrapeResultM.count_errors result _ _⟩

theorem ScrapeResultM.error_errors (r : ScrapeResultM) (stage detail : String) :
    (r.error stage detail).errors = r.errors ++ [⟨stage, detail⟩] := rfl

theorem my_answers_write_one_errors (pid : Nat) (qmap : List ((Nat × Nat) × Nat))
    (acc : MyAnswersAcc) (ans : MyAnswerScrape) :
    ∀ e ∈ (my_answers_write_one pid qmap acc ans).result.errors,
      e ∈ acc.result.errors ∨ e.stage = "my_answers" := by
  unfold my_answers_write_one
  cases dictGet qmap (ans.match_day, ans.question_number) with
  | none => exact fun e he => Or.inl he
  | some q_id =>
      dsimp only
      by_cases hdf : ans.db_fail
      · rw [if_pos hdf]
        intro e he
        rcases List.mem_append.mp he with he' | he'
        · exact Or.inl he'
        · simp only [List.mem_singleton] at he'
          subst he'
          exact Or.inr rfl
      · rw [if_neg hdf]
        exact fun e he => Or.inl he

theorem my_answers_fold_errors (pid : Nat) (qmap : List ((Nat × Nat) × Nat)) :
    ∀ (l : List MyAnswerScrape) (acc : MyAnswersAcc),
      ∀ e ∈ (l.foldl (my_answers_write_one pid qmap) acc).result.errors,
        e ∈ acc.result.errors ∨ e.stage = "my_answers" := by
  intro l
  induction l with
  | nil => exact fun acc e he => Or.inl he
  | cons ans l ih =>
      intro acc e he
      simp only [List.foldl_cons] at he
      rcases ih (my_answers_write_one pid qmap acc ans) e he with hin | hst
      · exact my_answers_write_one_errors pid qmap acc ans e hin
      · exact Or.inr hst

theorem scrape_my_answers_stage_errors (o : Oracle) (season : Nat) (db : DB)
    (result : ScrapeResultM) :
    ∀ e ∈ (scrape_my_answers_stage o season db result).2.errors,
      e ∈ result.errors ∨ e.stage = "my_answers" := by
  unfold scrape_my_answers_stage
  cases seasonIdByNumber db season with
  | none =>
      intro e he
      rw [ScrapeResultM.error_errors] at he
      rcases List.mem_append.mp he with he' | he'
      · exact Or.inl he'
      · simp only [List.mem_singleton] at he'
        subst he'
        exact Or.inr rfl
  | some season_id =>
      dsimp only
      cases playerIdByUsername db o.config_username with
      | none =>
          intro e he
          rw [ScrapeResultM.error_errors] at he
          rcases List.mem_append.mp he with he' | he'
          · exact Or.inl he'
          · simp only [List.mem_singleton] at he'
            subst he'
            exact Or.inr rfl
      | some player_id =>
          dsimp only
          intro e he
          rw [ScrapeResultM.count_errors] at he
          exact my_answers_fold_errors player_id _ o.my_answers _ e he

theorem match_results_write_one_errors (season_id : Nat) (acc : MatchResultsAcc)
    (m : MatchScrape) :
    ∀ e ∈ (match_results_write_one season_id acc m).result.errors,
      e ∈ acc.result.errors ∨ e.stage = "match_results" := by
  unfold match_results_write_one
  by_cases hdf : m.db_fail
  · rw [if_pos hdf]
    intro e he
    rcases List.mem_append.mp he with he' | he'
    · exact Or.inl he'
    · simp only [List.mem_singleton] at he'
      subst he'
      exact Or.inr rfl
  · rw [if_neg hdf]
    exact fun e he => Or.inl he

theorem match_results_fold_errors (season_id : Nat) :
    ∀ (l : List MatchScrape) (acc : MatchResultsAcc),
      ∀ e ∈ (l.foldl (match_results_write_one season_id) acc).result.errors,
        e ∈ acc.result.errors ∨ e.stage = "match_results" := by
  intro l
  induction l with
  | nil => exact fun acc e he => Or.inl he
  | cons m l ih =>
      intro acc e he
      simp only [List.foldl_cons] at he
      rcases ih (match_results_write_one season_id acc m) e he with hin | hst
      · exact match_results_write_one_errors season_id acc m e hin
      · exact Or.inr hst

theorem scrape_match_results_stage_errors (o : Oracle) (season : Nat) (db : DB)
    (result : ScrapeResultM) :
    ∀ e ∈ (scrape_match_results_stage o season db result).2.errors,
      e ∈ result.errors ∨ e.stage = "match_results" := by
  unfold scrape_match_results_stage
  cases seasonIdByNumber db season with
  | none =>
      intro e he
      rw [ScrapeResultM.error_errors] at he
      rcases List.mem_append.mp he with he' | he'
      · exact Or.inl he'
      · simp only [List.mem_singleton] at he'
        subst he'
        exact Or.inr rfl
  | some season_id =>
      dsimp only
      intro e he
      rw [ScrapeResultM.count_errors] at he
      exact match_results_fold_errors season_id o.match_results _ e he

theorem match_details_write_one_ok (o : Oracle) (cats : List (String × Nat))
    (h : ∀ mid d, o.match_details mid = some d → d.db_fail = false)
    (row : MatchRow) :
    ∀ acc, ∃ acc', match_details_write_one o cats acc row = Except.ok acc' := by
  intro acc
  unfold match_details_write_one
  cases row.ll_match_id with
  | none => exact ⟨acc, rfl⟩
  | some mid =>
      dsimp only
      by_cases hc : match_details_checkpoint acc.db row.id
      · rw [if_pos hc]
        exact ⟨acc, rfl⟩
      · rw [if_neg hc]
        cases hd : o.match_details mid with
        | none => exact ⟨acc, rfl⟩
        | some d =>
            dsimp only
            by_cases he : d.questions.isEmpty
            · rw [if_pos he]
              exact ⟨acc, rfl⟩
            · rw [if_neg he, if_neg (by simp [h mid d hd])]
              exact ⟨_, rfl⟩

theorem scrape_match_details_stage_ok (o : Oracle) (season : Nat) (db : DB)
    (result : ScrapeResultM)
    (h : ∀ mid d, o.match_details mid = some d → d.db_fail = false) :
    ∃ db' res', scrape_match_details_stage o season db result = Except.ok (db', res')
      ∧ res'.errors = result.errors := by
  unfold scrape_match_details_stage
  cases seasonIdByNumber db season with
  | none => exact ⟨db, result, rfl, rfl⟩
  | some season_id =>
      dsimp only
      obtain ⟨acc', hok⟩ := foldE_ok_of_units (match_details_write_one o
        (categoriesDict db))
        (db.matches.filter (fun m => m.season_id == season_id && m.ll_match_id.isSome))
        (fun row _ acc => match_details_write_one_ok o (categoriesDict db) h row acc)
        ⟨db, 0⟩
      rw [hok]
      exact ⟨acc'.db, _, rfl, ScrapeResultM.count_errors result _ _⟩

theorem profiles_write_one_ok (o : Oracle) (cats : List (String × Nat))
    (h : ∀ ll pd, o.profiles ll = some pd → pd.db_fail = false)
    (player : PlayerRow) :
    ∀ acc, ∃ acc', profiles_write_one o cats acc player = Except.ok acc' := by
  intro acc
  unfold profiles_write_one
  cases player.ll_id with
  | none => exact ⟨_, rfl⟩
  | some ll =>
      dsimp only
      by_cases hc : 15 ≤ lifetimeStatCount acc.db player.id
      · rw [if_pos hc]
        exact ⟨acc, rfl⟩
      · rw [if_neg hc]
        cases hp : o.profiles ll with
        | none => exact ⟨_, rfl⟩
        | some pd =>
            dsimp only
            by_cases he : pd.categories.isEmpty
            · rw [if_pos he]
              exact ⟨_, rfl⟩
            · rw [if_neg he, if_neg (by simp [h ll pd hp])]
              exact ⟨_, rfl⟩

theorem scrape_profiles_stage_ok (o : Oracle) (rundle_id : Nat) (db : DB)
    (result : ScrapeResultM)
    (h : ∀ ll pd, o.profiles ll = some pd → pd.db_fail = false) :
    ∃ db' res', scrape_profiles_stage o rundle_id db result = Except.ok (db', res')
      ∧ res'.errors = result.errors := by
  unfold scrape_profiles_stage
  simp only []
  obtain ⟨acc', hok⟩ := foldE_ok_of_units (profiles_write_one o (categoriesDict db))
    (rundle_player_rows db rundle_id)
    (fun player _ acc => profiles_write_one_ok o (categoriesDict db) h player acc)
    ⟨db, 0, 0, []⟩
  rw [hok]
  refine ⟨acc'.db, _, rfl, ?_⟩
  rw [ScrapeResultM.count_errors, ScrapeResultM.count_errors]

theorem scrape_rundle_answers_stage_errors (o : Oracle) (season rundle_id : Nat)
    (db : DB) (result : ScrapeResultM) :
    (scrape_rundle_answers_stage o season rundle_id db result).2.errors
      = result.errors := by
  unfold scrape_rundle_answers_stage
  cases seasonIdByNumber db season with
  | none => rfl
  | some season_id => exact ScrapeResultM.count_errors result _ _

set_option maxRecDepth 100000 in
/-- C3 counterexample: a database failure on a rundle-answers unit (a known
player's answer insert) is swallowed by `except Exception: pass`: the full
run completes with an *empty* error list, so "the failure is recorded in the
run-scoped error list" fails on the code. -/
theorem silent_failure_counterexample :
    ((oracleSilentFail.rundle_days 1).map
        (fun d => d.player_answers.map (fun pa => pa.db_fail))) = some [true]
    ∧ dictGet (ll_id_to_player sampleDB) 100 = some 1
    ∧ (scrape_full oracleSilentFail 107 "C_Skyline" allToggles sampleDB).toOption.map
        (fun p => p.2.errors) = some [] := by
  exact ⟨by decide, by decide, by decide⟩

/-- C3 (amended): no fetch failure, parse mismatch, or guarded per-unit
database error aborts `scrape_full` — every enabled stage runs and a
`ScrapeResult` is returned — but only the my-answers and match-results
stages ever record errors; fetch/parse failures and rundle-answers
persistence errors are skipped silently, and a persistence error at an
unguarded write (e.g. in the standings loop) propagates and aborts the
run. -/
theorem scrape_full_error_policy :
    (∀ (o : Oracle) (season_number : Nat) (rundle : String) (t : StageToggles)
        (db : DB),
      (∀ p ∈ o.players_stats, p.db_fail = false) →
      (∀ mid d, o.match_details mid = some d → d.db_fail = false) →
      (∀ ll pd, o.profiles ll = some pd → pd.db_fail = false) →
      ∃ db' res, scrape_full o season_number rundle t db = Except.ok (db', res)
        ∧ ∀ e ∈ res.errors, e.stage = "my_answers" ∨ e.stage = "match_results")
    ∧ (scrape_full oracleStandingsFail 107 "C_Skyline" allToggles
        sampleDB).isOk = false := by
  constructor
  · intro o sn rundle t db h1 h2 h3
    unfold scrape_full
    simp only []
    set w1 := ensure_rundle (get_or_create_season db sn).1
      (get_or_create_season db sn).2 rundle with hw1
    obtain ⟨⟨db1, res1⟩, heq1, herr1⟩ : ∃ p : DB × ScrapeResultM,
        (if t.include_standings then
          scrape_standings_stage o w1.2 w1.1 ScrapeResultM.init
         else Except.ok (w1.1, ScrapeResultM.init)) = Except.ok p
        ∧ p.2.errors = [] := by
      by_cases t1 : t.include_standings
      · rw [if_pos t1]
        obtain ⟨db', res', heq, herr⟩ :=
          scrape_standings_stage_ok o w1.2 w1.1 ScrapeResultM.init h1
        exact ⟨(db', res'), heq, by rw [herr]; rfl⟩
      · rw [if_neg t1]
        exact ⟨(w1.1, ScrapeResultM.init), rfl, rfl⟩
    rw [heq1]
    simp only []
    set s2 := (if t.include_my_answers then
        scrape_my_answers_stage o sn db1 res1 else (db1, res1)) with hs2
    have herr2 : ∀ e ∈ s2.2.errors, e.stage = "my_answers" := by
      by_cases t2 : t.include_my_answers
      · rw [hs2, if_pos t2]
        intro e he
        rcases scrape_my_answers_stage_errors o sn db1 res1 e he with hin | hst
        · rw [herr1] at hin
          exact absurd hin (List.not_mem_nil e)
        · exact hst
      · rw [hs2, if_neg t2]
        intro e he
        rw [herr1] at he
        exact absurd he (List.not_mem_nil e)
    set s3 := (if t.include_match_results then
        scrape_match_results_stage o sn s2.1 s2.2 else s2) with hs3
    have herr3 : ∀ e ∈ s3.2.errors,
        e.stage = "my_answers" ∨ e.stage = "match_results" := by
      by_cases t3 : t.include_match_results
      · rw [hs3, if_pos t3]
        intro e he
        rcases scrape_match_results_stage_errors o sn s2.1 s2.2 e he with hin | hst
        · exact Or.inl (herr2 e hin)
        · exact Or.inr hst
      · rw [hs3, if_neg t3]
        exact fun e he => Or.inl (herr2 e he)
    obtain ⟨⟨db4, res4⟩, heq4, herr4⟩ : ∃ p : DB × ScrapeResultM,
        (if t.include_match_details then
          scrape_match_details_stage o sn s3.1 s3.2 else Except.ok s3)
          = Except.ok p
        ∧ ∀ e ∈ p.2.errors,
            e.stage = "my_answers" ∨ e.stage = "match_results" := by
      by_cases t4 : t.include_match_details
      · rw [if_pos t4]
        obtain ⟨db', res', heq, herr⟩ :=
          scrape_match_details_stage_ok o sn s3.1 s3.2 h2
        refine ⟨(db', res'), heq, ?_⟩
        intro e he
        rw [herr] at he
        exact herr3 e he
      · rw [if_neg t4]
        exact ⟨s3, rfl, herr3⟩
    rw [heq4]
    simp only []
    obtain ⟨⟨db5, res5⟩, heq5, herr5⟩ : ∃ p : DB × ScrapeResultM,
        (if t.include_profiles then
          scrape_profiles_stage o w1.2 db4 res4 else Except.ok (db4, res4))
          = Except.ok p
        ∧ ∀ e ∈ p.2.errors,
            e.stage = "my_answers" ∨ e.stage = "match_results" := by
      by_cases t5 : t.include_profiles
      · rw [if_pos t5]
        obtain ⟨db', res', heq, herr⟩ :=
          scrape_profiles_stage_ok o w1.2 db4 res4 h3
        refine ⟨(db', res'), heq, ?_⟩
        intro e he
        rw [herr] at he
        exact herr4 e he
      · rw [if_neg t5]
        exact ⟨(db4, res4), rfl, herr4⟩
    rw [heq5]
    simp only []
    set s6 := (if t.include_rundle_answers then
        scrape_rundle_answers_stage o sn w1.2 db5 res5 else (db5, res5)) with hs6
    refine ⟨s6.1, s6.2, rfl, ?_⟩
    by_cases t6 : t.include_rundle_answers
    · rw [hs6, if_pos t6]
      intro e he
      rw [scrape_rundle_answers_stage_errors] at he
      exact herr5 e he
    · rw [hs6, if_neg t6]
      exact herr5
  · rfl

/-- Witness for the amended C3: a concrete run (failure-free oracle) returns
a result whose error list satisfies the tag property. -/
theorem scrape_full_error_policy_witness :
    (∀ p ∈ oracleRundle.players_stats, p.db_fail = false)
    ∧ ∃ db' res, scrape_full oracleRundle 107 "C_Skyline" allToggles sampleDB
        = Except.ok (db', res)
      ∧ ∀ e ∈ res.errors, e.stage = "my_answers" ∨ e.stage = "match_results" :=
  ⟨by simp [oracleRundle, oracleBase],
   scrape_full_error_policy.1 oracleRundle 107 "C_Skyline" allToggles sampleDB
     (by simp [oracleRundle, oracleBase])
     (fun mid d h => by simp [oracleRundle, oracleBase] at h)
     (fun ll pd h => by simp [oracleRundle, oracleBase] at h)⟩

/-! ### Re-run (idempotence) analysis, claim C4 -/

set_option maxRecDepth 100000 in
/-- C4 counterexample: re-running the rundle-answers stage against unchanged
source data rewrites the answers rows through `INSERT OR REPLACE`, which
deletes and re-inserts them — the surrogate `id` column of every rewritten
row changes (1..6 become 7..12), so "the same row contents (including
key/identifier columns)" fails even though the row count and all other
columns are unchanged. -/
theorem rerun_changes_answer_ids :
    ((scrape_rundle_answers_stage oracleRundle 107 1 sampleDB
        ScrapeResultM.init).1.answers.map (fun a => a.id) = [1, 2, 3, 4, 5, 6])
    ∧ ((scrape_rundle_answers_stage oracleRundle 107 1
        (scrape_rundle_answers_stage oracleRundle 107 1 sampleDB
          ScrapeResultM.init).1 ScrapeResultM.init).1.answers.map (fun a => a.id)
        = [7, 8, 9, 10, 11, 12])
    ∧ (scrape_rundle_answers_stage oracleRundle 107 1
        (scrape_rundle_answers_stage oracleRundle 107 1 sampleDB
          ScrapeResultM.init).1 ScrapeResultM.init).1.answers.length
        = (scrape_rundle_answers_stage oracleRundle 107 1 sampleDB
            ScrapeResultM.init).1.answers.length := by
  exact ⟨by decide, by decide, by decide⟩

/-- One successful my-answers write, restated as its effect on the three
touched store components. -/
theorem my_answers_write_one_db (pid : Nat) (qmap : List ((Nat × Nat) × Nat))
    (acc : MyAnswersAcc) (ans : MyAnswerScrape) (q_id : Nat)
    (hq : dictGet qmap (ans.match_day, ans.question_number) = some q_id)
    (hdf : ans.db_fail = false) :
    (my_answers_write_one pid qmap acc ans).db
      = { acc.db with
          answers := (answersInsStep pid (acc.db.answers, acc.db.nextAnswerId)
            (q_id, ans)).1,
          nextAnswerId := (answersInsStep pid (acc.db.answers, acc.db.nextAnswerId)
            (q_id, ans)).2,
          questions := acc.db.questions.map (myAnswerQStep (q_id, ans)) } := by
  unfold my_answers_write_one
  rw [hq]
  dsimp only
  rw [if_neg (by simp [hdf])]
  by_cases hg : (ans.question_text != "" || ans.correct_answer != "") = true
  · rw [if_pos hg]
    unfold updateQuestionTextById insertOrReplaceAnswer answersInsStep myAnswerQStep
    simp only [hg, Bool.true_and]
  · rw [if_neg hg]
    unfold insertOrReplaceAnswer answersInsStep myAnswerQStep
    simp only [Bool.not_eq_true] at hg
    simp only [hg, Bool.false_and, if_neg]
    simp only [Bool.false_eq_true, if_false, List.map_id']

/-- Decomposition of the my-answers write loop: the store after the loop is
the input store with the answers table (plus its id counter) folded through
the `INSERT OR REPLACE` steps and the questions table folded through the
enrichment steps, over the resolved writes. -/
theorem my_answers_fold_db (pid : Nat) (qmap : List ((Nat × Nat) × Nat)) :
    ∀ (l : List MyAnswerScrape) (acc : MyAnswersAcc),
      (l.foldl (my_answers_write_one pid qmap) acc).db
        = { acc.db with
            answers := ((resolvedMyWrites qmap l).foldl (answersInsStep pid)
              (acc.db.answers, acc.db.nextAnswerId)).1,
            nextAnswerId := ((resolvedMyWrites qmap l).foldl (answersInsStep pid)
              (acc.db.answers, acc.db.nextAnswerId)).2,
            questions := (resolvedMyWrites qmap l).foldl
              (fun qs w => qs.map (myAnswerQStep w)) acc.db.questions } := by
  intro l
  induction l with
  | nil => intro acc; rfl
  | cons ans l ih =>
      intro acc
      simp only [List.foldl_cons]
      cases hq : dictGet qmap (ans.match_day, ans.question_number) with
      | none =>
          have hres : resolvedMyWrites qmap (ans :: l) = resolvedMyWrites qmap l := by
            unfold resolvedMyWrites
            rw [List.filterMap_cons, hq]
          have hstep : my_answers_write_one pid qmap acc ans = acc := by
            unfold my_answers_write_one
            rw [hq]
          rw [hstep, hres]
          exact ih acc
      | some q_id =>
          by_cases hdf : ans.db_fail
          · have hres : resolvedMyWrites qmap (ans :: l) = resolvedMyWrites qmap l := by
              unfold resolvedMyWrites
              rw [List.filterMap_cons, hq]
              simp [hdf]
            have hstep : my_answers_write_one pid qmap acc ans
                = { acc with result := acc.result.error "my_answers" "db error" } := by
              unfold my_answers_write_one
              rw [hq]
              dsimp only
              rw [if_pos hdf]
            rw [hstep, hres]
            exact ih _
          · have hdf' : ans.db_fail = false := by
              simpa using hdf
            have hres : resolvedMyWrites qmap (ans :: l)
                = (q_id, ans) :: resolvedMyWrites qmap l := by
              unfold resolvedMyWrites
              rw [List.filterMap_cons, hq]
              simp [hdf']
            rw [hres]
            simp only [List.foldl_cons]
            rw [ih (my_answers_write_one pid qmap acc ans),
                my_answers_write_one_db pid qmap acc ans q_id hq hdf']

/-- Characterisation of a run of `INSERT OR REPLACE` answer writes for one
player: rows with overwritten keys are removed from the base table, and the
appended rows carry exactly the canonical payloads (last write per question
wins) — whatever ids the fresh rows received. -/
theorem answersInsStep_fold_payload (pid : Nat) :
    ∀ (L : List (Nat × MyAnswerScrape)) (base : List AnswerRow) (nid : Nat),
      ∃ rows, (L.foldl (answersInsStep pid) (base, nid)).1
          = base.filter (fun a =>
              !(a.player_id == pid && (L.map (fun w => w.1)).contains a.question_id))
            ++ rows
        ∧ rows.map answerPayload = canonicalMyPayloads pid L
        ∧ ∀ r ∈ rows, r.player_id = pid
            ∧ (L.map (fun w => w.1)).contains r.question_id = true := by
  intro L
  induction L with
  | nil =>
      intro base nid
      refine ⟨[], ?_, rfl, by simp⟩
      have hps : (fun (a : AnswerRow) =>
          !(a.player_id == pid && (([] : List (Nat × MyAnswerScrape)).map
            (fun w => w.1)).contains a.question_id)) = fun _ => true := by
        funext a
        simp
      rw [List.foldl_nil, hps, List.filter_true, List.append_nil]
  | cons w L ih =>
      intro base nid
      simp only [List.foldl_cons]
      obtain ⟨rows', hsplit, hpay, hmem⟩ := ih
        (base.filter (fun a => !(a.player_id == pid && a.question_id == w.1)) ++
          [⟨nid, pid, w.1, w.2.correct, none⟩]) (nid + 1)
      have hstep : answersInsStep pid (base, nid) w
          = (base.filter (fun a => !(a.player_id == pid && a.question_id == w.1)) ++
              [⟨nid, pid, w.1, w.2.correct, none⟩], nid + 1) := rfl
      rw [hstep, hsplit, List.filter_append, List.filter_filter]
      have hcombine : base.filter (fun a =>
            (!(a.player_id == pid &&
              (List.map (fun w => w.1) L).contains a.question_id)) &&
            (!(a.player_id == pid && a.question_id == w.1)))
          = base.filter (fun a => !(a.player_id == pid &&
              (List.map (fun w => w.1) (w :: L)).contains a.question_id)) := by
        apply List.filter_congr
        intro a _
        simp only [List.map_cons, List.contains_cons]
        cases hx : a.player_id == pid <;>
          cases hb : a.question_id == w.1 <;>
            cases hc : (List.map (fun w => w.1) L).contains a.question_id <;>
              simp [hx, hb, hc]
      rw [hcombine]
      have hrowval : (!((⟨nid, pid, w.1, w.2.correct, none⟩ : AnswerRow).player_id == pid &&
            (List.map (fun w => w.1) L).contains
              (⟨nid, pid, w.1, w.2.correct, none⟩ : AnswerRow).question_id))
          = !(List.map (fun w => w.1) L).contains w.1 := by
        dsimp only
        rw [beq_self_eq_true, Bool.true_and]
      by_cases hc0 : (List.map (fun w => w.1) L).contains w.1
      · have hfrow : List.filter (fun a => !(a.player_id == pid &&
            (List.map (fun w => w.1) L).contains a.question_id))
            [(⟨nid, pid, w.1, w.2.correct, none⟩ : AnswerRow)] = [] := by
          rw [List.filter_cons, hrowval, hc0]
          rfl
        rw [hfrow, List.append_nil]
        refine ⟨rows', rfl, ?_, ?_⟩
        · rw [hpay]
          rw [show canonicalMyPayloads pid (w :: L)
              = canonicalMyPayloads pid L from by
            simp only [canonicalMyPayloads]
            rw [if_pos hc0]]
        · intro r hr
          obtain ⟨h1, h2⟩ := hmem r hr
          refine ⟨h1, ?_⟩
          simp only [List.map_cons, List.contains_cons]
          rw [h2, Bool.or_true]
      · have hc0' : (List.map (fun w => w.1) L).contains w.1 = false := by
          simpa using hc0
        have hfrow : List.filter (fun a => !(a.player_id == pid &&
            (List.map (fun w => w.1) L).contains a.question_id))
            [(⟨nid, pid, w.1, w.2.correct, none⟩ : AnswerRow)]
            = [⟨nid, pid, w.1, w.2.correct, none⟩] := by
          rw [List.filter_cons, hrowval, hc0']
          rfl
        rw [hfrow]
        refine ⟨⟨nid, pid, w.1, w.2.correct, none⟩ :: rows',
          by rw [List.append_assoc]; rfl, ?_, ?_⟩
        · rw [List.map_cons, hpay,
            show canonicalMyPayloads pid (w :: L)
              = (pid, w.1, w.2.correct, none) :: canonicalMyPayloads pid L from by
            simp only [canonicalMyPayloads]
            rw [if_neg hc0]]
          rfl
        · intro r hr
          rcases List.mem_cons.mp hr with hr' | hr'
          · subst hr'
            refine ⟨rfl, ?_⟩
            simp
          · obtain ⟨h1, h2⟩ := hmem r hr'
            refine ⟨h1, ?_⟩
            simp only [List.map_cons, List.contains_cons]
            rw [h2, Bool.or_true]

/-- Fieldwise extensionality for question rows. -/
theorem questionRow_eq_of_fields {a b : QuestionRow}
    (h1 : a.id = b.id) (h2 : a.season_id = b.season_id)
    (h3 : a.match_day = b.match_day) (h4 : a.question_number = b.question_number)
    (h5 : a.question_text = b.question_text)
    (h6 : a.correct_answer = b.correct_answer)
    (h7 : a.category_id = b.category_id) : a = b := by
  cases a
  cases b
  simp_all

/-- What the per-row questions fold of a resolved-write list does: the key
columns are untouched and the text/answer columns are decided by the last
enriching write for the row's id (the COALESCE arguments are non-NULL, so
each enriching write overwrites). -/
theorem myQFold_spec (W : List (Nat × MyAnswerScrape)) :
    ∀ q : QuestionRow,
      (myQFold W q).id = q.id
      ∧ (myQFold W q).season_id = q.season_id
      ∧ (myQFold W q).match_day = q.match_day
      ∧ (myQFold W q).question_number = q.question_number
      ∧ (myQFold W q).category_id = q.category_id
      ∧ (match lastQWrite W q.id with
         | none => (myQFold W q).question_text = q.question_text
             ∧ (myQFold W q).correct_answer = q.correct_answer
         | some w => (myQFold W q).question_text = some w.2.question_text
             ∧ (myQFold W q).correct_answer = some w.2.correct_answer) := by
  induction W with
  | nil =>
      intro q
      exact ⟨rfl, rfl, rfl, rfl, rfl, rfl, rfl⟩
  | cons w W ih =>
      intro q
      have hfold : myQFold (w :: W) q = myQFold W (myAnswerQStep w q) := rfl
      obtain ⟨hid, hsid, hmd, hqn, hcat, htext⟩ := ih (myAnswerQStep w q)
      by_cases hc : ((w.2.question_text != "" || w.2.correct_answer != "")
          && q.id == w.1) = true
      · have hq' : myAnswerQStep w q
            = { q with question_text := some w.2.question_text,
                       correct_answer := some w.2.correct_answer } := by
          unfold myAnswerQStep
          rw [if_pos hc]
          rfl
        have hq1 : (myAnswerQStep w q).id = q.id := by rw [hq']
        have hq2 : (myAnswerQStep w q).season_id = q.season_id := by rw [hq']
        have hq3 : (myAnswerQStep w q).match_day = q.match_day := by rw [hq']
        have hq4 : (myAnswerQStep w q).question_number = q.question_number := by
          rw [hq']
        have hq5 : (myAnswerQStep w q).category_id = q.category_id := by rw [hq']
        have hc2 : (w.2.question_text != "" || w.2.correct_answer != "") = true
            ∧ (q.id == w.1) = true := by
          constructor
          · cases hx : (w.2.question_text != "" || w.2.correct_answer != "") with
            | true => rfl
            | false =>
                rw [hx, Bool.false_and] at hc
                exact Bool.noConfusion hc
          · cases hx : (q.id == w.1) with
            | true => rfl
            | false =>
                rw [hx, Bool.and_false] at hc
                exact Bool.noConfusion hc
        have hpw : ((w.2.question_text != "" || w.2.correct_answer != "")
            && (w.1 == q.id)) = true := by
          have hkey : q.id = w.1 := by
            have := hc2.2
            simpa using this
          rw [hkey]
          simp only [beq_self_eq_true, Bool.and_true]
          exact hc2.1
        rw [hq1] at htext
        refine ⟨?_, ?_, ?_, ?_, ?_, ?_⟩
        · rw [hfold, hid, hq1]
        · rw [hfold, hsid, hq2]
        · rw [hfold, hmd, hq3]
        · rw [hfold, hqn, hq4]
        · rw [hfold, hcat, hq5]
        · cases hW : lastQWrite W q.id with
          | some x =>
              have hlast : lastQWrite (w :: W) q.id = some x := by
                unfold lastQWrite at hW ⊢
                rw [List.reverse_cons, List.find?_append, hW]
                rfl
              rw [hlast, hfold]
              rw [hW] at htext
              exact htext
          | none =>
              have hlast : lastQWrite (w :: W) q.id = some w := by
                unfold lastQWrite at hW ⊢
                rw [List.reverse_cons, List.find?_append, hW, Option.none_or]
                simp only [List.find?]
                rw [hpw]
              rw [hlast, hfold]
              rw [hW] at htext
              obtain ⟨ht1, ht2⟩ := htext
              exact ⟨by rw [ht1, hq'], by rw [ht2, hq']⟩
      · have hq' : myAnswerQStep w q = q := by
          unfold myAnswerQStep
          rw [if_neg hc]
        rw [hq'] at hid hsid hmd hqn hcat htext
        rw [hfold, hq']
        have hpw' : ((w.2.question_text != "" || w.2.correct_answer != "")
            && (w.1 == q.id)) = false := by
          cases ht : (w.2.question_text != "" || w.2.correct_answer != "") with
          | false => rw [Bool.false_and]
          | true =>
              cases hk : (w.1 == q.id) with
              | false => rw [Bool.and_false]
              | true =>
                  exfalso
                  apply hc
                  have hkey : w.1 = q.id := by simpa using hk
                  rw [ht, Bool.true_and, hkey]
                  exact beq_self_eq_true q.id
        have hlast : lastQWrite (w :: W) q.id = lastQWrite W q.id := by
          unfold lastQWrite
          rw [List.reverse_cons, List.find?_append]
          have hfind : List.find? (fun v : Nat × MyAnswerScrape =>
              (v.2.question_text != "" || v.2.correct_answer != "")
                && v.1 == q.id) [w] = none := by
            simp only [List.find?]
            rw [hpw']
          rw [hfind]
          exact Option.or_none
        rw [hlast]
        exact ⟨hid, hsid, hmd, hqn, hcat, htext⟩

/-- Folding the same resolved-write list over an already-folded question row
changes nothing: each enriching write re-applies the same non-NULL COALESCE
values. -/
theorem myQFold_idem (W : List (Nat × MyAnswerScrape)) (q : QuestionRow) :
    myQFold W (myQFold W q) = myQFold W q := by
  obtain ⟨h1, h2, h3, h4, h5, h6⟩ := myQFold_spec W q
  obtain ⟨g1, g2, g3, g4, g5, g6⟩ := myQFold_spec W (myQFold W q)
  rw [h1] at g6
  apply questionRow_eq_of_fields
  · exact g1
  · exact g2
  · exact g3
  · exact g4
  · cases hW : lastQWrite W q.id with
    | none =>
        rw [hW] at g6
        exact g6.1
    | some x =>
        rw [hW] at h6 g6
        exact g6.1.trans h6.1.symm
  · cases hW : lastQWrite W q.id with
    | none =>
        rw [hW] at g6
        exact g6.2
    | some x =>
        rw [hW] at h6 g6
        exact g6.2.trans h6.2.symm
  · exact g5

/-- The questions loop of the my-answers stage, a fold of per-write table
maps, is the table map of the per-row fold. -/
theorem questions_fold_map (W : List (Nat × MyAnswerScrape)) :
    ∀ qs : List QuestionRow,
      W.foldl (fun qs w => qs.map (myAnswerQStep w)) qs = qs.map (myQFold W) := by
  induction W with
  | nil =>
      intro qs
      rw [List.foldl_nil]
      have h : myQFold ([] : List (Nat × MyAnswerScrape)) = fun q => q := rfl
      rw [h, List.map_id']
  | cons w W ih =>
      intro qs
      rw [List.foldl_cons, ih, List.map_map]
      apply List.map_congr_left
      intro a _
      rfl

/-- `LLScraper._get_question_map` is untouched by any per-row rewrite of the
questions table that preserves the id and key columns. -/
theorem question_map_map (qs : List QuestionRow) (sid : Nat)
    (f : QuestionRow → QuestionRow)
    (hid : ∀ q, (f q).id = q.id) (hs : ∀ q, (f q).season_id = q.season_id)
    (hd : ∀ q, (f q).match_day = q.match_day)
    (hn : ∀ q, (f q).question_number = q.question_number) :
    ((qs.map f).filter (fun q => q.season_id == sid)).map
        (fun q => ((q.match_day, q.question_number), q.id))
      = (qs.filter (fun q => q.season_id == sid)).map
        (fun q => ((q.match_day, q.question_number), q.id)) := by
  rw [List.filter_map, List.map_map]
  rw [show ((fun (q : QuestionRow) => q.season_id == sid) ∘ f)
      = (fun q => q.season_id == sid) from by
    funext q
    simp only [Function.comp_apply, hs]]
  apply List.map_congr_left
  intro a _
  show (((f a).match_day, (f a).question_number), (f a).id)
    = ((a.match_day, a.question_number), a.id)
  rw [hid, hd, hn]

theorem scrape_my_answers_stage_no_season (o : Oracle) (season : Nat) (db : DB)
    (result : ScrapeResultM) (h : seasonIdByNumber db season = none) :
    scrape_my_answers_stage o season db result
      = (db, result.error "my_answers" "season not found") := by
  unfold scrape_my_answers_stage
  rw [h]

theorem scrape_my_answers_stage_no_player (o : Oracle) (season : Nat) (db : DB)
    (result : ScrapeResultM) (sid : Nat)
    (h1 : seasonIdByNumber db season = some sid)
    (h2 : playerIdByUsername db o.config_username = none) :
    scrape_my_answers_stage o season db result
      = (db, result.error "my_answers" "player not found in database") := by
  unfold scrape_my_answers_stage
  rw [h1]
  dsimp only
  rw [h2]

/-- The store a successful my-answers stage run leaves behind, as one record
update: an answers-table fold over the resolved writes and a per-row
questions fold. -/
theorem scrape_my_answers_stage_db (o : Oracle) (season : Nat) (db : DB)
    (result : ScrapeResultM) (sid pid : Nat)
    (h1 : seasonIdByNumber db season = some sid)
    (h2 : playerIdByUsername db o.config_username = some pid) :
    (scrape_my_answers_stage o season db result).1
      = { db with
          answers := ((resolvedMyWrites (question_map db sid) o.my_answers).foldl
            (answersInsStep pid) (db.answers, db.nextAnswerId)).1,
          nextAnswerId := ((resolvedMyWrites (question_map db sid) o.my_answers).foldl
            (answersInsStep pid) (db.answers, db.nextAnswerId)).2,
          questions := db.questions.map
            (myQFold (resolvedMyWrites (question_map db sid) o.my_answers)) } := by
  unfold scrape_my_answers_stage
  rw [h1]
  dsimp only
  rw [h2]
  dsimp only
  rw [my_answers_fold_db]
  dsimp only
  rw [questions_fold_map]

/-- C4 (amended): re-running the my-answers stage against unchanged source
data produces zero net row changes up to the surrogate `answers.id` column —
the answers table keeps its row count and its
(player_id, question_id, correct, defense) payloads, the questions table is
unchanged, and every other table is identical; the surrogate answer ids
themselves are reassigned by the second run's `INSERT OR REPLACE`. -/
theorem my_answers_second_run (o : Oracle) (season : Nat) (db : DB)
    (r1 r2 : ScrapeResultM) :
    ((scrape_my_answers_stage o season
        (scrape_my_answers_stage o season db r1).1 r2).1.answers.map answerPayload
      = (scrape_my_answers_stage o season db r1).1.answers.map answerPayload)
    ∧ ((scrape_my_answers_stage o season
        (scrape_my_answers_stage o season db r1).1 r2).1.answers.length
      = (scrape_my_answers_stage o season db r1).1.answers.length)
    ∧ ((scrape_my_answers_stage o season
        (scrape_my_answers_stage o season db r1).1 r2).1.questions
      = (scrape_my_answers_stage o season db r1).1.questions)
    ∧ ((scrape_my_answers_stage o season
        (scrape_my_answers_stage o season db r1).1 r2).1.seasons
      = (scrape_my_answers_stage o season db r1).1.seasons)
    ∧ ((scrape_my_answers_stage o season
        (scrape_my_answers_stage o season db r1).1 r2).1.players
      = (scrape_my_answers_stage o season db r1).1.players)
    ∧ ((scrape_my_answers_stage o season
        (scrape_my_answers_stage o season db r1).1 r2).1.categories
      = (scrape_my_answers_stage o season db r1).1.categories)
    ∧ ((scrape_my_answers_stage o season
        (scrape_my_answers_stage o season db r1).1 r2).1.rundles
      = (scrape_my_answers_stage o season db r1).1.rundles)
    ∧ ((scrape_my_answers_stage o season
        (scrape_my_answers_stage o season db r1).1 r2).1.player_rundles
      = (scrape_my_answers_stage o season db r1).1.player_rundles)
    ∧ ((scrape_my_answers_stage o season
        (scrape_my_answers_stage o season db r1).1 r2).1.matches
      = (scrape_my_answers_stage o season db r1).1.matches)
    ∧ ((scrape_my_answers_stage o season
        (scrape_my_answers_stage o season db r1).1 r2).1.match_questions
      = (scrape_my_answers_stage o season db r1).1.match_questions)
    ∧ ((scrape_my_answers_stage o season
        (scrape_my_answers_stage o season db r1).1 r2).1.player_lifetime_stats
      = (scrape_my_answers_stage o season db r1).1.player_lifetime_stats) := by
  cases hsid : seasonIdByNumber db season with
  | none =>
      have e1 : (scrape_my_answers_stage o season db r1).1 = db := by
        rw [scrape_my_answers_stage_no_season o season db r1 hsid]
      have e2 : (scrape_my_answers_stage o season db r2).1 = db := by
        rw [scrape_my_answers_stage_no_season o season db r2 hsid]
      rw [e1, e2]
      exact ⟨rfl, rfl, rfl, rfl, rfl, rfl, rfl, rfl, rfl, rfl, rfl⟩
  | some sid =>
      cases hpid : playerIdByUsername db o.config_username with
      | none =>
          have e1 : (scrape_my_answers_stage o season db r1).1 = db := by
            rw [scrape_my_answers_stage_no_player o season db r1 sid hsid hpid]
          have e2 : (scrape_my_answers_stage o season db r2).1 = db := by
            rw [scrape_my_answers_stage_no_player o season db r2 sid hsid hpid]
          rw [e1, e2]
          exact ⟨rfl, rfl, rfl, rfl, rfl, rfl, rfl, rfl, rfl, rfl, rfl⟩
      | some pid =>
          have hs1 := scrape_my_answers_stage_db o season db r1 sid pid hsid hpid
          have hsid2 : seasonIdByNumber
              (scrape_my_answers_stage o season db r1).1 season = some sid := by
            rw [hs1]
            exact hsid
          have hpid2 : playerIdByUsername
              (scrape_my_answers_stage o season db r1).1 o.config_username
              = some pid := by
            rw [hs1]
            exact hpid
          have hqmap : question_map (scrape_my_answers_stage o season db r1).1 sid
              = question_map db sid := by
            rw [hs1]
            unfold question_map
            exact question_map_map db.questions sid
              (myQFold (resolvedMyWrites (question_map db sid) o.my_answers))
              (fun q => (myQFold_spec _ q).1)
              (fun q => (myQFold_spec _ q).2.1)
              (fun q => (myQFold_spec _ q).2.2.1)
              (fun q => (myQFold_spec _ q).2.2.2.1)
          have hs2 := scrape_my_answers_stage_db o season
            (scrape_my_answers_stage o season db r1).1 r2 sid pid hsid2 hpid2
          rw [hqmap] at hs2
          have hA1 : (scrape_my_answers_stage o season db r1).1.answers
              = ((resolvedMyWrites (question_map db sid) o.my_answers).foldl
                  (answersInsStep pid) (db.answers, db.nextAnswerId)).1 := by
            rw [hs1]
          have hN1 : (scrape_my_answers_stage o season db r1).1.nextAnswerId
              = ((resolvedMyWrites (question_map db sid) o.my_answers).foldl
                  (answersInsStep pid) (db.answers, db.nextAnswerId)).2 := by
            rw [hs1]
          have hQ1 : (scrape_my_answers_stage o season db r1).1.questions
              = db.questions.map
                  (myQFold (resolvedMyWrites (question_map db sid) o.my_answers)) := by
            rw [hs1]
          have hA2 : (scrape_my_answers_stage o season
              (scrape_my_answers_stage o season db r1).1 r2).1.answers
              = ((resolvedMyWrites (question_map db sid) o.my_answers).foldl
                  (answersInsStep pid)
                  ((scrape_my_answers_stage o season db r1).1.answers,
                   (scrape_my_answers_stage o season db r1).1.nextAnswerId)).1 := by
            rw [hs2]
          have hQ2 : (scrape_my_answers_stage o season
              (scrape_my_answers_stage o season db r1).1 r2).1.questions
              = (scrape_my_answers_stage o season db r1).1.questions.map
                  (myQFold (resolvedMyWrites (question_map db sid) o.my_answers)) := by
            rw [hs2]
          have hT1 : (scrape_my_answers_stage o season
              (scrape_my_answers_stage o season db r1).1 r2).1.seasons
              = (scrape_my_answers_stage o season db r1).1.seasons := by
            rw [hs2]
          have hT2 : (scrape_my_answers_stage o season
              (scrape_my_answers_stage o season db r1).1 r2).1.players
              = (scrape_my_answers_stage o season db r1).1.players := by
            rw [hs2]
          have hT3 : (scrape_my_answers_stage o season
              (scrape_my_answers_stage o season db r1).1 r2).1.categories
              = (scrape_my_answers_stage o season db r1).1.categories := by
            rw [hs2]
          have hT4 : (scrape_my_answers_stage o season
              (scrape_my_answers_stage o season db r1).1 r2).1.rundles
              = (scrape_my_answers_stage o season db r1).1.rundles := by
            rw [hs2]
          have hT5 : (scrape_my_answers_stage o season
              (scrape_my_answers_stage o season db r1).1 r2).1.player_rundles
              = (scrape_my_answers_stage o season db r1).1.player_rundles := by
            rw [hs2]
          have hT6 : (scrape_my_answers_stage o season
              (scrape_my_answers_stage o season db r1).1 r2).1.matches
              = (scrape_my_answers_stage o season db r1).1.matches := by
            rw [hs2]
          have hT7 : (scrape_my_answers_stage o season
              (scrape_my_answers_stage o season db r1).1 r2).1.match_questions
              = (scrape_my_answers_stage o season db r1).1.match_questions := by
            rw [hs2]
          have hT8 : (scrape_my_answers_stage o season
              (scrape_my_answers_stage o season db r1).1 r2).1.player_lifetime_stats
              = (scrape_my_answers_stage o season db r1).1.player_lifetime_stats := by
            rw [hs2]
          obtain ⟨rows1, he1, hp1, hm1⟩ := answersInsStep_fold_payload pid
            (resolvedMyWrites (question_map db sid) o.my_answers)
            db.answers db.nextAnswerId
          obtain ⟨rows2, he2, hp2, hm2⟩ := answersInsStep_fold_payload pid
            (resolvedMyWrites (question_map db sid) o.my_answers)
            ((resolvedMyWrites (question_map db sid) o.my_answers).foldl
              (answersInsStep pid) (db.answers, db.nextAnswerId)).1
            ((resolvedMyWrites (question_map db sid) o.my_answers).foldl
              (answersInsStep pid) (db.answers, db.nextAnswerId)).2
          have hr1nil : rows1.filter (fun a => !(a.player_id == pid &&
              ((resolvedMyWrites (question_map db sid) o.my_answers).map
                (fun w => w.1)).contains a.question_id)) = [] :=
            List.filter_eq_nil_iff.mpr (fun r hr => by
              obtain ⟨ha, hb⟩ := hm1 r hr
              intro hcon
              have hcon' : (!(r.player_id == pid &&
                  ((resolvedMyWrites (question_map db sid) o.my_answers).map
                    (fun w => w.1)).contains r.question_id)) = true := hcon
              rw [ha, beq_self_eq_true, Bool.true_and, hb, Bool.not_true] at hcon'
              exact Bool.noConfusion hcon')
          have hff : (db.answers.filter (fun a => !(a.player_id == pid &&
                ((resolvedMyWrites (question_map db sid) o.my_answers).map
                  (fun w => w.1)).contains a.question_id))).filter
                (fun a => !(a.player_id == pid &&
                  ((resolvedMyWrites (question_map db sid) o.my_answers).map
                    (fun w => w.1)).contains a.question_id))
              = db.answers.filter (fun a => !(a.player_id == pid &&
                  ((resolvedMyWrites (question_map db sid) o.my_answers).map
                    (fun w => w.1)).contains a.question_id)) := by
            rw [List.filter_filter]
            apply List.filter_congr
            intro a _
            exact Bool.and_self _
          have hfil : ((resolvedMyWrites (question_map db sid) o.my_answers).foldl
                (answersInsStep pid) (db.answers, db.nextAnswerId)).1.filter
                (fun a => !(a.player_id == pid &&
                  ((resolvedMyWrites (question_map db sid) o.my_answers).map
                    (fun w => w.1)).contains a.question_id))
              = db.answers.filter (fun a => !(a.player_id == pid &&
                  ((resolvedMyWrites (question_map db sid) o.my_answers).map
                    (fun w => w.1)).contains a.question_id)) := by
            rw [he1, List.filter_append, hr1nil, List.append_nil]
            exact hff
          have hpay : (scrape_my_answers_stage o season
              (scrape_my_answers_stage o season db r1).1 r2).1.answers.map
                answerPayload
              = (scrape_my_answers_stage o season db r1).1.answers.map
                answerPayload := by
            rw [hA2, hA1, hN1, he2, List.map_append, hp2, hfil]
            conv_rhs => rw [he1, List.map_append, hp1]
          have hlen : (scrape_my_answers_stage o season
              (scrape_my_answers_stage o season db r1).1 r2).1.answers.length
              = (scrape_my_answers_stage o season db r1).1.answers.length := by
            have h := congrArg List.length hpay
            simpa using h
          have hques : (scrape_my_answers_stage o season
              (scrape_my_answers_stage o season db r1).1 r2).1.questions
              = (scrape_my_answers_stage o season db r1).1.questions := by
            rw [hQ2, hQ1, List.map_map]
            apply List.map_congr_left
            intro a _
            exact myQFold_idem _ a
          exact ⟨hpay, hlen, hques, hT1, hT2, hT3, hT4, hT5, hT6, hT7, hT8⟩

end LLAnalytics
